import Mathlib

/-!
Verification of the order/catalog reconciliation pipeline of
`backend/upload_processor.py` (class `UploadProcessor`), shallowly embedded
in Lean.  Tabular data is modelled by `DataFrame` (a list of column names
plus positionally aligned rows of `Value` cells); pandas `NaN` is modelled
by `Value.null`, and floating point numbers by exact rationals (`ℚ`), so
`pd.to_numeric(..., errors='coerce')` becomes `toNumeric?`, `fillna`
becomes an explicit default, and `round(x, n)` becomes `round2`/`round4`
(rounding `x·10^n` to the nearest integer).
-/

/-- A scalar cell of a table: a string, a (rational) number, or a missing
value (pandas `NaN`/`None`). -/
inductive Value where
  | str (s : String)
  | num (q : ℚ)
  | null
deriving DecidableEq, Repr

/-- A row is the list of its cells, positionally aligned with the column
list of its `DataFrame`.  A row shorter than the column list has `null`
in the remaining columns. -/
abbrev Row := List Value

/-- Abstract tabular dataset: ordered column names plus rows. -/
structure DataFrame where
  cols : List String
  rows : List Row
deriving DecidableEq, Repr

/-- The empty dataset `pd.DataFrame()`. -/
def DataFrame.empty : DataFrame := ⟨[], []⟩

/-- Index of the first column with the given name. -/
def colIdx : List String → String → Option Nat
  | [], _ => none
  | c :: cs, d => if c = d then some 0 else (colIdx cs d).map (· + 1)

/-- Cell at position `i` of a row; out-of-range positions read as `null`. -/
def cellAt : Row → Nat → Value
  | [], _ => Value.null
  | v :: _, 0 => v
  | _ :: t, i + 1 => cellAt t i

/-- Read the cell of column `c` of a row; missing column or missing cell
reads as `null`. -/
def getCell (cols : List String) (r : Row) (c : String) : Value :=
  match colIdx cols c with
  | some i => cellAt r i
  | none => Value.null

/-- Write position `i` of a row, padding with `null` cells if the row is
shorter than `i`. -/
def setAt : Row → Nat → Value → Row
  | _ :: t, 0, v => v :: t
  | [], 0, v => [v]
  | h :: t, i + 1, v => h :: setAt t i v
  | [], i + 1, v => Value.null :: setAt [] i v

/-- Position that a column assignment writes to: the column's index if it
exists, else the next fresh position (column append). -/
def colPos (cols : List String) (c : String) : Nat := (colIdx cols c).getD cols.length

/-- `df[c] = f(row)` — pandas column assignment: overwrites the column if
present, appends it otherwise. -/
def DataFrame.withCol (df : DataFrame) (c : String) (f : Row → Value) : DataFrame :=
  { cols := if (colIdx df.cols c).isSome then df.cols else df.cols ++ [c],
    rows := df.rows.map (fun r => setAt r (colPos df.cols c) (f r)) }

/-- Pad a row with `null` cells up to length `n`. -/
def padTo (r : Row) (n : Nat) : Row := r ++ List.replicate (n - r.length) Value.null

/-- `fillna(0)` over a whole dataset: every missing cell becomes the number 0. -/
def fillVal (v : Value) : Value := if v = Value.null then Value.num 0 else v

/-- `df.fillna(0)` (together with `df.replace([inf, -inf], 0)`, which is the
identity here: the exact-rational model has no infinite values). -/
def DataFrame.fillna0 (df : DataFrame) : DataFrame :=
  ⟨df.cols, df.rows.map (fun r => (padTo r df.cols.length).map fillVal)⟩

/-! ### String utilities (substring containment, number rendering, parsing) -/

/-- `startsWithL pat s`: `pat` is an initial segment of `s`. -/
def startsWithL : List Char → List Char → Bool
  | [], _ => true
  | _ :: _, [] => false
  | c :: cs, d :: ds => c == d && startsWithL cs ds

/-- `hasSubList pat s`: `pat` occurs contiguously inside `s`. -/
def hasSubList (pat s : List Char) : Bool :=
  match s with
  | [] => pat.isEmpty
  | _ :: t => startsWithL pat s || hasSubList pat t

/-- Python's `pat in s` substring test. -/
def containsSub (s pat : String) : Bool := hasSubList pat.data s.data

/-- Python's `s.endswith(suf)`. -/
def endsWithStr (s suf : String) : Bool := startsWithL suf.data.reverse s.data.reverse

/-- Python's `s.lower()` (character-wise ASCII lowering). -/
def toLowerStr (s : String) : String := String.mk (s.data.map Char.toLower)

/-- Python's `s.strip()`: drop leading and trailing whitespace. -/
def trimStr (s : String) : String :=
  String.mk (((s.data.dropWhile Char.isWhitespace).reverse.dropWhile Char.isWhitespace).reverse)

/-- The decimal digit characters. -/
def digitChar (n : Nat) : Char :=
  if n = 0 then '0' else if n = 1 then '1' else if n = 2 then '2'
  else if n = 3 then '3' else if n = 4 then '4' else if n = 5 then '5'
  else if n = 6 then '6' else if n = 7 then '7' else if n = 8 then '8' else '9'

/-- Decimal digits of `n`, most significant first (fuel-driven). -/
def natCharsAux : Nat → Nat → List Char → List Char
  | 0, _, acc => acc
  | fuel + 1, n, acc =>
      let acc2 := digitChar (n % 10) :: acc
      if n < 10 then acc2 else natCharsAux fuel (n / 10) acc2

/-- Decimal rendering of a natural number. -/
def natChars (n : Nat) : List Char := natCharsAux (n + 1) n []

/-- Canonical character rendering of a rational (sign, numerator, and
`/ denominator` when not an integer).  Stands in for Python's `str()` of a
number; all its characters are ASCII. -/
def ratChars (q : ℚ) : List Char :=
  (if q.num < 0 then ['-'] else []) ++ natChars q.num.natAbs ++
    (if q.den = 1 then [] else '/' :: natChars q.den)

/-- String rendering of a rational. -/
def ratToStr (q : ℚ) : String := String.mk (ratChars q)

/-- Python `str()` of a cell (`astype(str)`): strings unchanged, numbers
rendered, `NaN` rendered as `"nan"`. -/
def Value.toStr : Value → String
  | .str s => s
  | .num q => ratToStr q
  | .null => "nan"

/-- Numeric value of a digit character, if any. -/
def digitVal? (c : Char) : Option Nat :=
  if c = '0' then some 0 else if c = '1' then some 1 else if c = '2' then some 2
  else if c = '3' then some 3 else if c = '4' then some 4 else if c = '5' then some 5
  else if c = '6' then some 6 else if c = '7' then some 7 else if c = '8' then some 8
  else if c = '9' then some 9 else none

/-- Value of a digit string (`some 0` on the empty list; callers guard). -/
def digitsVal (cs : List Char) : Option Nat :=
  cs.foldl (fun acc c =>
    match acc, digitVal? c with
    | some a, some d => some (a * 10 + d)
    | _, _ => none) (some 0)

/-- Parse an unsigned decimal literal (`"12"`, `"12.5"`, `"12."`, `".5"`). -/
def parseUnsigned (cs : List Char) : Option ℚ :=
  let ip := cs.takeWhile (fun c => (digitVal? c).isSome)
  let rest := cs.drop ip.length
  match rest with
  | [] => if ip.isEmpty then none else (digitsVal ip).map (fun n => (n : ℚ))
  | '.' :: fp =>
      if fp.all (fun c => (digitVal? c).isSome) && (!ip.isEmpty || !fp.isEmpty) then
        match digitsVal ip, digitsVal fp with
        | some a, some b => some ((a : ℚ) + (b : ℚ) / ((10 : ℚ) ^ fp.length))
        | _, _ => none
      else none
  | _ => none

/-- Parse a signed decimal literal after trimming whitespace; models the
successful cases of `pd.to_numeric(string, errors='coerce')`. -/
def parseQ (s : String) : Option ℚ :=
  match (trimStr s).data with
  | [] => none
  | '-' :: cs => (parseUnsigned cs).map (fun q => -q)
  | '+' :: cs => parseUnsigned cs
  | cs => parseUnsigned cs

/-- `pd.to_numeric(v, errors='coerce')`: numbers pass through, numeric
strings parse, everything else is `NaN` (`none`). -/
def toNumeric? : Value → Option ℚ
  | .num q => some q
  | .str s => parseQ s
  | .null => none

/-- `pd.to_numeric(v, errors='coerce').fillna(d)`. -/
def toNumericD (v : Value) (d : ℚ) : ℚ := (toNumeric? v).getD d

/-- The numeric reading of an already-coerced cell (numeric pandas column). -/
def numOf : Value → ℚ
  | .num q => q
  | _ => 0

/-- `round(x, 2)` of the source (nearest-integer rounding of `100·x`). -/
def round2 (q : ℚ) : ℚ := ((round (q * 100) : ℤ) : ℚ) / 100

/-- `round(x, 4)` of the source (nearest-integer rounding of `10000·x`). -/
def round4 (q : ℚ) : ℚ := ((round (q * 10000) : ℤ) : ℚ) / 10000

/-! ### Column-role detection (`UploadProcessor` keyword lists) -/

/-- Keywords of the order-mark column (`clean_order_data`). -/
def markKeywords : List String := ["订单标记", "标记", "mark"]

/-- Keywords of the amount column used by cleaning (`clean_order_data`). -/
def amountKeywordsClean : List String := ["买家实付", "实付", "金额", "付款"]

/-- Keywords of status columns (`clean_order_data`). -/
def statusKeywords : List String := ["状态", "status"]

/-- Keywords of the order-identifier column (`clean_order_data`, `process_data`). -/
def orderIdKeywords : List String := ["订单号", "订单编号", "order"]

/-- Keywords of the shop column (`clean_order_data`). -/
def shopKeywords : List String := ["店铺", "shop"]

/-- Catalog-side SKU candidate keywords (`match_products_with_orders`). -/
def productSkuKeywords : List String := ["商家编码", "sku", "编号", "商品编码", "货号", "code"]

/-- Order-side SKU candidate keywords (`match_products_with_orders`). -/
def orderSkuKeywords : List String := ["商品编码", "sku", "编号", "商家编码", "货号", "code"]

/-- Cost-name keywords (`is_cost_name` in `calculate_costs_and_profits`). -/
def costKeywords : List String := ["成本", "进货", "采购", "cost"]

/-- Quantity candidate keywords (`calculate_costs_and_profits`). -/
def qtyKeywords : List String := ["数量", "件数", "qty", "num", "购买数量", "下单数量", "宝贝总数量"]

/-- Revenue candidate keywords (`calculate_costs_and_profits`). -/
def amountKeywordsCalc : List String :=
  ["买家实付", "实付", "付款", "应付", "支付", "金额", "收款", "成交价", "支付金额"]

/-- `[c for c in cols if any(k in str(c).lower() for k in kws)]`. -/
def detectCols (kws : List String) (cols : List String) : List String :=
  cols.filter (fun c => kws.any (fun k => containsSub (toLowerStr c) k))

/-- First detected amount column of cleaning, if any. -/
def amountColOf (cols : List String) : Option String := (detectCols amountKeywordsClean cols).head?

/-- First detected order-identifier column, if any. -/
def orderIdColOf (cols : List String) : Option String := (detectCols orderIdKeywords cols).head?

/-! ### `clean_order_data` -/

/-- The mark filter: the first order-mark column's value, rendered as a
string, must not contain `"空单"` (empty order); rows pass vacuously when no
mark column exists.  Evaluated on the row before amount coercion, as in the
source. -/
def markPass (cols : List String) (r : Row) : Bool :=
  match (detectCols markKeywords cols).head? with
  | some mc => !containsSub (getCell cols r mc).toStr "空单"
  | none => true

/-- The status filter: for every status column, the value must differ from
`"关闭"`, not contain `"退款"`, and differ from `"[线下订单]"`.  Evaluated
after amount coercion, as in the source. -/
def statusPass (cols : List String) (r : Row) : Bool :=
  (detectCols statusKeywords cols).all fun sc =>
    let s := (getCell cols r sc).toStr
    !(s == "关闭") && !containsSub s "退款" && !(s == "[线下订单]")

/-- `df[amount_col] = pd.to_numeric(df[amount_col], errors='coerce').fillna(0)`:
coerce the detected amount column of a row to a number (default 0). -/
def coerceAmount (cols : List String) (r : Row) : Row :=
  match amountColOf cols with
  | some ac => setAt r (colPos cols ac) (Value.num (toNumericD (getCell cols r ac) 0))
  | none => r

/-- The rows surviving the mark/status base filter, with the amount column
coerced to numbers (lines 151–187 of `upload_processor.py`). -/
def cleanBase (df : DataFrame) : List Row :=
  ((df.rows.map (fun r => (markPass df.cols r, coerceAmount df.cols r))).filter
    (fun pr => pr.1 && statusPass df.cols pr.2)).map (fun pr => pr.2)

/-- Sum of the (coerced) amount column over the rows of the order-identifier
group of `k` — pandas `groupby(order_id)[amount].transform('sum')`. -/
def groupSum (cols : List String) (rows : List Row) (oc ac : String) (k : Value) : ℚ :=
  ((rows.filter (fun r => getCell cols r oc == k)).map
    (fun r => numOf (getCell cols r ac))).sum

/-- The order-level monetary filter: with both an amount and an
order-identifier column, keep the rows whose group amount-sum is positive
(rows with a null identifier belong to no pandas group and are dropped);
with only an amount column, keep rows with amount `> 0`; with no amount
column, keep everything. -/
def monetaryFilter (cols : List String) (rows : List Row) : List Row :=
  match amountColOf cols, orderIdColOf cols with
  | some ac, some oc =>
      rows.filter fun r =>
        !(getCell cols r oc == Value.null) &&
          decide (0 < groupSum cols rows oc ac (getCell cols r oc))
  | some ac, none => rows.filter (fun r => decide (0 < numOf (getCell cols r ac)))
  | none, _ => rows

/-- The optional shop filter: with a non-empty selection and a detected shop
column, a row passes when its shop cell equals one of the selected names. -/
def shopPass (cols : List String) (shops : List String) (r : Row) : Bool :=
  if shops.isEmpty then true
  else
    match (detectCols shopKeywords cols).head? with
    | some sc => shops.any (fun s => getCell cols r sc == Value.str s)
    | none => true

/-- `UploadProcessor.clean_order_data` (lines 145–218): base mark/status
filter, order-level monetary filter, then the optional shop filter. -/
def cleanOrderData (df : DataFrame) (shops : List String) : DataFrame :=
  ⟨df.cols, (monetaryFilter df.cols (cleanBase df)).filter (shopPass df.cols shops)⟩

/-- Cleaning entry point: an absent orders table yields `pd.DataFrame()`. -/
def cleanOrders : Option DataFrame → List String → DataFrame
  | none, _ => DataFrame.empty
  | some df, shops => cleanOrderData df shops

/-! ### `match_products_with_orders` -/

/-- Drop the first column named `c` (and its cells) from a dataset. -/
def dropCol (df : DataFrame) (c : String) : DataFrame :=
  match colIdx df.cols c with
  | some i => ⟨df.cols.eraseIdx i, df.rows.map (fun r => (padTo r df.cols.length).eraseIdx i)⟩
  | none => df

/-- pandas left merge `left.merge(right, left_on, right_on, how='left',
suffixes=('_order', '_product'))`: one output row per matching right row
(right columns `null` when no right row matches); when the two key names
coincide the right key column is dropped and a single key column (from the
left) remains; remaining common column names get the side suffixes. -/
def mergeLeft (left right : DataFrame) (lOn rOn : String) : DataFrame :=
  let rightR := if lOn = rOn then dropCol right rOn else right
  let lCols := left.cols.map (fun c => if rightR.cols.contains c then c ++ "_order" else c)
  let rCols := rightR.cols.map (fun c => if left.cols.contains c then c ++ "_product" else c)
  let rows := left.rows.map (padTo · left.cols.length) |>.flatMap fun lr =>
    let k := getCell left.cols lr lOn
    let ms := rightR.rows.filter (fun rr => getCell rightR.cols rr rOn == k)
    if ms.isEmpty then [lr ++ List.replicate rightR.cols.length Value.null]
    else ms.map (fun rr => lr ++ padTo rr rightR.cols.length)
  ⟨lCols ++ rCols, rows⟩

/-- `df[c] = df[c].astype(str).str.strip()`. -/
def strCol (df : DataFrame) (c : String) : DataFrame :=
  df.withCol c (fun r => Value.str (trimStr (getCell df.cols r c).toStr))

/-- One candidate pairing attempt: normalise both key columns to trimmed
strings, left-join orders to the catalog, and count the joined rows whose
catalog-side key cell is non-null (the pairing's score). -/
def scoreOf (product orders : DataFrame) (pc oc : String) : DataFrame × Nat :=
  let p := strCol product pc
  let o := strCol orders oc
  let m := mergeLeft o p oc pc
  (m, (m.rows.filter (fun r => !(getCell m.cols r pc == Value.null))).length)

/-- The evaluated (catalog-column, order-column) pairings, catalog
candidates outer loop, order candidates inner loop. -/
def candidatePairs (product orders : DataFrame) : List (String × String) :=
  (detectCols productSkuKeywords product.cols).flatMap fun pc =>
    (detectCols orderSkuKeywords orders.cols).map fun oc => (pc, oc)

/-- The best-so-far fold of the source: update only on a strictly greater
score (`if matched_count > best_match_count`). -/
def pickAux {α : Type} : List (α × Nat) → Option α × Nat → Option α × Nat
  | [], acc => acc
  | (a, c) :: rest, (b, cnt) =>
      if cnt < c then pickAux rest (some a, c) else pickAux rest (b, cnt)

/-- `UploadProcessor.match_products_with_orders` (lines 221–297). -/
def matchProducts (product? : Option DataFrame) (orders : DataFrame) : DataFrame :=
  match product? with
  | none => DataFrame.empty
  | some product =>
    if orders.rows.isEmpty then DataFrame.empty
    else if (detectCols productSkuKeywords product.cols).isEmpty ||
        (detectCols orderSkuKeywords orders.cols).isEmpty then
      orders.withCol "匹配状态" (fun _ => Value.str "未匹配")
    else
      match pickAux ((candidatePairs product orders).map
          (fun pr => scoreOf product orders pr.1 pr.2)) (none, 0) with
      | (some m, cnt) =>
          if 0 < cnt then m else orders.withCol "匹配状态" (fun _ => Value.str "匹配失败")
      | (none, _) => orders.withCol "匹配状态" (fun _ => Value.str "匹配失败")

/-! ### `calculate_costs_and_profits` -/

/-- `is_cost_name`: the lower-cased name contains a cost keyword. -/
def isCostName (c : String) : Bool := costKeywords.any (fun k => containsSub (toLowerStr c) k)

/-- The unit-cost source column: first a `_product`-suffixed cost-named
column of the merged table, else a cost-named catalog column still present
in the merged table. -/
def costColOf (product? : Option DataFrame) (cols : List String) : Option String :=
  let fromSuffix := cols.filter (fun c => endsWithStr c "_product" && isCostName c)
  (if fromSuffix.isEmpty then
    match product? with
    | some p => p.cols.filter (fun c => isCostName c && cols.contains c)
    | none => []
  else fromSuffix).head?

/-- Per-row unit cost: the numeric coercion (default 0) of the chosen cost
column, or 0 when no qualifying catalog-side cost column exists. -/
def unitCostVal (product? : Option DataFrame) (matched : DataFrame) (r : Row) : ℚ :=
  match costColOf product? matched.cols with
  | some cc => toNumericD (getCell matched.cols r cc) 0
  | none => 0

/-- Stage 1 of `calculate_costs_and_profits`: `df['单位成本'] = ...`. -/
def ccD1 (product? : Option DataFrame) (matched : DataFrame) : DataFrame :=
  matched.withCol "单位成本" (fun r => Value.num (unitCostVal product? matched r))

/-- Per-row quantity: numeric coercion (default 1) of the first
quantity-keyword column, or 1 when none exists. -/
def qtyVal (product? : Option DataFrame) (matched : DataFrame) (r : Row) : ℚ :=
  match (detectCols qtyKeywords (ccD1 product? matched).cols).head? with
  | some qc => toNumericD (getCell (ccD1 product? matched).cols r qc) 1
  | none => 1

/-- Stage 2: `df['数量'] = ...`. -/
def ccD2 (product? : Option DataFrame) (matched : DataFrame) : DataFrame :=
  (ccD1 product? matched).withCol "数量" (fun r => Value.num (qtyVal product? matched r))

/-- Per-row revenue: rounded numeric coercion (default 0) of the first
revenue-keyword column, or 0 when none exists. -/
def revenueVal (product? : Option DataFrame) (matched : DataFrame) (r : Row) : ℚ :=
  match (detectCols amountKeywordsCalc (ccD2 product? matched).cols).head? with
  | some a => round2 (toNumericD (getCell (ccD2 product? matched).cols r a) 0)
  | none => 0

/-- Stage 3: `df['销售收入'] = ...`. -/
def ccD3 (product? : Option DataFrame) (matched : DataFrame) : DataFrame :=
  (ccD2 product? matched).withCol "销售收入" (fun r => Value.num (revenueVal product? matched r))

/-- Stage 4: `df['总成本'] = (df['单位成本'] * df['数量']).round(2)`. -/
def ccD4 (product? : Option DataFrame) (matched : DataFrame) : DataFrame :=
  (ccD3 product? matched).withCol "总成本" fun r =>
    Value.num (round2 (numOf (getCell (ccD3 product? matched).cols r "单位成本") *
      numOf (getCell (ccD3 product? matched).cols r "数量")))

/-- Stage 5: `df['利润'] = (df['销售收入'] - df['总成本']).round(2)`. -/
def ccD5 (product? : Option DataFrame) (matched : DataFrame) : DataFrame :=
  (ccD4 product? matched).withCol "利润" fun r =>
    Value.num (round2 (numOf (getCell (ccD4 product? matched).cols r "销售收入") -
      numOf (getCell (ccD4 product? matched).cols r "总成本")))

/-- Stage 6: `df['毛利率'] = np.where(df['销售收入'] > 0,
(df['利润'] / df['销售收入']).round(4), 0)`. -/
def ccD6 (product? : Option DataFrame) (matched : DataFrame) : DataFrame :=
  (ccD5 product? matched).withCol "毛利率" fun r =>
    Value.num (if 0 < numOf (getCell (ccD5 product? matched).cols r "销售收入") then
        round4 (numOf (getCell (ccD5 product? matched).cols r "利润") /
          numOf (getCell (ccD5 product? matched).cols r "销售收入"))
      else 0)

/-- Stage 7: `df['数据处理时间'] = ...` (the processing timestamp). -/
def ccD7 (product? : Option DataFrame) (matched : DataFrame) (now : String) : DataFrame :=
  (ccD6 product? matched).withCol "数据处理时间" (fun _ => Value.str now)

/-- `UploadProcessor.calculate_costs_and_profits` (lines 344-409): derive
`单位成本` (unit cost), `数量` (quantity), `销售收入` (revenue), `总成本`
(total cost), `利润` (profit), `毛利率` (margin), stamp the processing time,
and sanitise (`replace([inf,-inf],0)` — identity over exact rationals — and
`fillna(0)`). -/
def calculateCostsAndProfits (product? : Option DataFrame) (matched : DataFrame)
    (now : String) : DataFrame :=
  if matched.rows.isEmpty then DataFrame.empty
  else (ccD7 product? matched now).fillna0

/-! ### Summary statistics, shop analysis and `process_data` -/

/-- First-occurrence deduplication of a value list (pandas `unique`). -/
def firstDedupAux : List Value → List Value → List Value
  | [], _ => []
  | v :: t, seen =>
      if seen.contains v then firstDedupAux t seen else v :: firstDedupAux t (v :: seen)

/-- Distinct values in order of first appearance. -/
def firstDedup (l : List Value) : List Value := firstDedupAux l []

/-- All values of one column. -/
def colValues (df : DataFrame) (c : String) : List Value :=
  df.rows.map (fun r => getCell df.cols r c)

/-- pandas `nunique()`: distinct non-null values. -/
def nunique (vs : List Value) : Nat := (firstDedup (vs.filter (fun v => !(v == Value.null)))).length

/-- Numeric reading of a cell with missing-column/missing-cell default 0
(`pd.to_numeric(df.get(c, 0), errors='coerce').fillna(0)` per row). -/
def cellQ (df : DataFrame) (r : Row) (c : String) : ℚ := toNumericD (getCell df.cols r c) 0

/-- Column sum with the same coercion. -/
def colSumQ (df : DataFrame) (c : String) : ℚ := (df.rows.map (fun r => cellQ df r c)).sum

/-- Mean of a list; the empty mean (a pandas `NaN`) is sanitised to 0 by
`safe_json_convert`. -/
def safeMean (l : List ℚ) : ℚ := if l.isEmpty then 0 else l.sum / l.length

/-- Overall summary record (`get_summary_statistics`). -/
structure Summary where
  totalRecords : Nat
  totalShops : Nat
  totalCost : ℚ
  totalRevenue : ℚ
  totalProfit : ℚ
  avgMargin : ℚ
deriving DecidableEq, Repr

/-- Per-shop breakdown record (`analyze_by_shop`). -/
structure ShopStats where
  shopName : String
  totalOrders : Nat
  totalCost : ℚ
  totalRevenue : ℚ
  totalProfit : ℚ
  avgMargin : ℚ
deriving DecidableEq, Repr

/-- Row-count/order-count bookkeeping of `process_data`. -/
structure ProcessingInfo where
  originalLines : Nat
  cleanedLines : Nat
  cleanedOrders : Nat
  matchedLines : Nat
  processedTime : String
deriving DecidableEq, Repr

/-- The analysis record returned by `process_data`. -/
structure Analysis where
  summary : Option Summary
  shopAnalysis : List ShopStats
  processingInfo : ProcessingInfo
deriving DecidableEq, Repr

/-- `UploadProcessor.get_summary_statistics` (empty input yields `{}`,
modelled as `none`). -/
def getSummary (df : DataFrame) : Option Summary :=
  if df.rows.isEmpty then none
  else
    let totalCost := colSumQ df "总成本"
    let totalRevenue := colSumQ df "销售收入"
    some
      { totalRecords := df.rows.length
        totalShops :=
          match (detectCols shopKeywords df.cols).head? with
          | some sc => nunique (colValues df sc)
          | none => 0
        totalCost := totalCost
        totalRevenue := totalRevenue
        totalProfit := round2 (totalRevenue - totalCost)
        avgMargin :=
          if 0 < totalRevenue then
            safeMean (((df.rows.filter (fun r => decide (0 < cellQ df r "销售收入"))).map
              (fun r => cellQ df r "毛利率")))
          else 0 }

/-- Statistics of the rows of one shop. -/
def shopStatsOf (df : DataFrame) (sc : String) (shop : Value) : ShopStats :=
  let sub : DataFrame := ⟨df.cols, df.rows.filter (fun r => getCell df.cols r sc == shop)⟩
  let totalCost := colSumQ sub "总成本"
  let totalRevenue := colSumQ sub "销售收入"
  { shopName := shop.toStr
    totalOrders := sub.rows.length
    totalCost := totalCost
    totalRevenue := totalRevenue
    totalProfit := round2 (totalRevenue - totalCost)
    avgMargin :=
      if 0 < totalRevenue then
        safeMean (((sub.rows.filter (fun r => decide (0 < cellQ sub r "销售收入"))).map
          (fun r => cellQ sub r "毛利率")))
      else 0 }

/-- `UploadProcessor.analyze_by_shop`: one entry per distinct non-null shop
value, in order of first appearance. -/
def analyzeByShop (df : DataFrame) : List ShopStats :=
  if df.rows.isEmpty then []
  else
    match (detectCols shopKeywords df.cols).head? with
    | some sc =>
        (firstDedup ((colValues df sc).filter (fun v => !(v == Value.null)))).map
          (shopStatsOf df sc)
    | none => []

/-- `UploadProcessor.process_data` (lines 578–606): clean, match, compute,
then build the analysis record; an empty cleaning result short-circuits to
`(pd.DataFrame(), {})`, modelled as `(DataFrame.empty, none)`. -/
def processData (product? orders? : Option DataFrame) (shops : List String)
    (now : String) : DataFrame × Option Analysis :=
  let cleaned := cleanOrders orders? shops
  if cleaned.rows.isEmpty then (DataFrame.empty, none)
  else
    let matched := matchProducts product? cleaned
    let processed := calculateCostsAndProfits product? matched now
    (processed, some
      { summary := getSummary processed
        shopAnalysis := analyzeByShop processed
        processingInfo :=
          { originalLines := (orders?.map (fun o => o.rows.length)).getD 0
            cleanedLines := cleaned.rows.length
            cleanedOrders :=
              match orderIdColOf processed.cols with
              | some oc => nunique (colValues processed oc)
              | none => 0
            matchedLines := processed.rows.length
            processedTime := now } })

/-! ### Concrete datasets used by the claim analyses -/

/-- Modelled from the spec: the composite business key of `BusinessDeduper`
(spec 4.5) — the concatenation of whichever of the order-identifier,
SKU/merchant-code and SPEC/model column values are present.  The repository
has no such component: `process_data` (the claimed dedup site) goes
clean → match → compute with no deduplication stage, so this definition only
serves to state the key-uniqueness property the spec asserts. -/
def businessKey (df : DataFrame) (r : Row) : String :=
  (match orderIdColOf df.cols with
    | some oc => (getCell df.cols r oc).toStr ++ "|"
    | none => "") ++
  (match (detectCols orderSkuKeywords df.cols).head? with
    | some kc => (getCell df.cols r kc).toStr ++ "|"
    | none => "") ++
  (match (detectCols ["规格", "spec"] df.cols).head? with
    | some pc => (getCell df.cols r pc).toStr
    | none => "")

/-- Scenario C catalog: the same code `A1` twice, with costs 4 and 9. -/
def catalogC : DataFrame :=
  ⟨["code", "cost"], [[Value.str "A1", Value.num 4], [Value.str "A1", Value.num 9]]⟩

/-- A single order row joining on code `A1`. -/
def ordersC : DataFrame := ⟨["sku"], [[Value.str "A1"]]⟩

/-- Scenario A catalog: one entry, code `A1`, cost 4. -/
def catalogA : DataFrame := ⟨["code", "cost"], [[Value.str "A1", Value.num 4]]⟩

/-- Scenario A orders with the literal column names of the spec
(`order_id`, `sku`, `paid`). -/
def ordersA : DataFrame :=
  ⟨["order_id", "sku", "paid"],
    [[Value.num 1, Value.str "A1", Value.num 10], [Value.num 1, Value.str "A1", Value.num 0]]⟩

/-- Scenario A orders with the amount column named by a recognised amount
keyword (`实付`) instead of `paid`. -/
def ordersA2 : DataFrame :=
  ⟨["order_id", "sku", "实付"],
    [[Value.num 1, Value.str "A1", Value.num 10], [Value.num 1, Value.str "A1", Value.num 0]]⟩

/-- A one-entry catalog keyed by `商家编码` (merchant code). -/
def catalogD : DataFrame := ⟨["商家编码", "成本"], [[Value.str "A1", Value.num 2]]⟩

/-- Two fully identical order rows of one paid order. -/
def ordersD : DataFrame :=
  ⟨["订单号", "商品编码", "实付"],
    [[Value.str "1", Value.str "A1", Value.num 5], [Value.str "1", Value.str "A1", Value.num 5]]⟩

/-- A catalog with SKU/cost columns but zero rows. -/
def catalog0 : DataFrame := ⟨["商家编码", "成本"], []⟩

/-- One valid paid order row. -/
def orders1 : DataFrame :=
  ⟨["订单号", "商品编码", "实付"], [[Value.str "1", Value.str "A1", Value.num 10]]⟩

/-- One order (id 1) whose two lines sum to 5: a line of -5 in shop A and a
line of 10 in shop B. -/
def ordersS : DataFrame :=
  ⟨["订单号", "实付", "店铺"],
    [[Value.str "1", Value.num (-5), Value.str "A"], [Value.str "1", Value.num 10, Value.str "B"]]⟩

/-- Orders with no amount-keyword column at all and a zero-revenue row. -/
def ordersN : DataFrame := ⟨["订单号", "颜色"], [[Value.str "1", Value.str "红"]]⟩

/-- A tiny already-matched table for instantiating the cost-formula claim. -/
def matchedW : DataFrame := ⟨["实付", "cost"], [[Value.num 10, Value.num 4]]⟩

/-- The catalog that `matchedW` was joined from. -/
def productW : DataFrame := ⟨["cost"], [[Value.num 4]]⟩

/-- A matched table with no cost column and no quantity column. -/
def matchedN : DataFrame := ⟨["实付"], [[Value.num 10]]⟩

/-! ### Structural lemmas about columns, cells and column assignment -/

theorem colIdx_get {cols : List String} {c : String} {i : Nat}
    (h : colIdx cols c = some i) : cols.getD i "" = c := by
  induction cols generalizing i with
  | nil => simp [colIdx] at h
  | cons d ds ih =>
    simp only [colIdx] at h
    split at h
    · next hdc =>
      cases h
      simpa using hdc
    · rcases Option.map_eq_some'.mp h with ⟨j, hj, hji⟩
      subst hji
      simpa using ih hj

theorem colIdx_lt {cols : List String} {c : String} {i : Nat}
    (h : colIdx cols c = some i) : i < cols.length := by
  induction cols generalizing i with
  | nil => simp [colIdx] at h
  | cons d ds ih =>
    simp only [colIdx] at h
    split at h
    · cases h
      simp
    · rcases Option.map_eq_some'.mp h with ⟨j, hj, hji⟩
      subst hji
      simpa using ih hj

theorem colIdx_ne {cols : List String} {c d : String} {i j : Nat}
    (hc : colIdx cols c = some i) (hd : colIdx cols d = some j) (hcd : c ≠ d) : i ≠ j := by
  intro hij
  subst hij
  exact hcd ((colIdx_get hc).symm.trans (colIdx_get hd))

theorem colIdx_of_mem {cols : List String} {c : String} (h : c ∈ cols) :
    (colIdx cols c).isSome := by
  induction cols with
  | nil => simp at h
  | cons d ds ih =>
    by_cases hdc : d = c
    · simp [colIdx, hdc]
    · rcases List.mem_cons.mp h with h1 | h1
      · exact absurd h1.symm hdc
      · simp only [colIdx, hdc, if_false]
        rcases Option.isSome_iff_exists.mp (ih h1) with ⟨j, hj⟩
        simp [hj]

theorem not_mem_of_colIdx_none {cols : List String} {c : String}
    (h : colIdx cols c = none) : c ∉ cols := by
  intro hmem
  have := colIdx_of_mem hmem
  simp [h] at this

theorem colIdx_append_left {cols l : List String} {d : String} {j : Nat}
    (h : colIdx cols d = some j) : colIdx (cols ++ l) d = some j := by
  induction cols generalizing j with
  | nil => simp [colIdx] at h
  | cons e es ih =>
    simp only [colIdx, List.cons_append] at h ⊢
    split at h
    · next hed => simpa [hed] using h
    · next hed =>
      rcases Option.map_eq_some'.mp h with ⟨k, hk, hkj⟩
      simp [hed, ih hk, hkj]

theorem colIdx_append_self {cols : List String} {c : String}
    (h : colIdx cols c = none) : colIdx (cols ++ [c]) c = some cols.length := by
  induction cols with
  | nil => simp [colIdx]
  | cons d ds ih =>
    simp only [colIdx] at h
    split at h
    · exact absurd h (by simp)
    · next hdc =>
      have h2 : colIdx ds c = none := by
        rcases he : colIdx ds c with _ | k
        · rfl
        · simp [he] at h
      simp [colIdx, List.cons_append, hdc, ih h2]

theorem colIdx_append_none {cols : List String} {c d : String}
    (h : colIdx cols d = none) (hdc : d ≠ c) : colIdx (cols ++ [c]) d = none := by
  induction cols with
  | nil => simp [colIdx, Ne.symm hdc]
  | cons e es ih =>
    simp only [colIdx] at h
    split at h
    · exact absurd h (by simp)
    · next hed =>
      have h2 : colIdx es d = none := by
        rcases he : colIdx es d with _ | k
        · rfl
        · simp [he] at h
      simp [colIdx, List.cons_append, hed, ih h2]

theorem cellAt_setAt_self (r : Row) (i : Nat) (v : Value) :
    cellAt (setAt r i v) i = v := by
  induction r generalizing i with
  | nil =>
    induction i with
    | zero => rfl
    | succ j ih => simpa [setAt, cellAt] using ih
  | cons h t ih =>
    cases i with
    | zero => rfl
    | succ j => simpa [setAt, cellAt] using ih j

theorem cellAt_replicate_null (m i : Nat) :
    cellAt (List.replicate m Value.null) i = Value.null := by
  induction m generalizing i with
  | zero => rfl
  | succ k ih =>
    cases i with
    | zero => rfl
    | succ j => simpa [List.replicate, cellAt] using ih j

theorem cellAt_setAt_nil (v : Value) :
    ∀ i j : Nat, j ≠ i → cellAt (setAt ([] : Row) i v) j = Value.null := by
  intro i
  induction i with
  | zero =>
    intro j hj
    cases j with
    | zero => exact absurd rfl hj
    | succ k => rfl
  | succ m ih =>
    intro j hj
    cases j with
    | zero => rfl
    | succ k => simpa [setAt, cellAt] using ih k (by omega)

theorem cellAt_setAt_ne (r : Row) :
    ∀ {i j : Nat} (v : Value), j ≠ i → cellAt (setAt r i v) j = cellAt r j := by
  induction r with
  | nil =>
    intro i j v hij
    simpa [cellAt] using cellAt_setAt_nil v i j hij
  | cons h t ih =>
    intro i j v hij
    cases i with
    | zero =>
      cases j with
      | zero => exact absurd rfl hij
      | succ k => rfl
    | succ m =>
      cases j with
      | zero => rfl
      | succ k => simpa [setAt, cellAt] using ih v (show k ≠ m by omega)

theorem setAt_setAt (r : Row) (i : Nat) (v w : Value) :
    setAt (setAt r i v) i w = setAt r i w := by
  induction r generalizing i with
  | nil =>
    induction i with
    | zero => rfl
    | succ j ih => simpa [setAt] using ih
  | cons h t ih =>
    cases i with
    | zero => rfl
    | succ j => simpa [setAt] using ih j

theorem cellAt_append_replicate (r : Row) (m i : Nat) :
    cellAt (r ++ List.replicate m Value.null) i = cellAt r i := by
  induction r generalizing i with
  | nil => simpa [cellAt] using cellAt_replicate_null m i
  | cons h t ih =>
    cases i with
    | zero => rfl
    | succ k => simpa [cellAt] using ih k

theorem cellAt_padTo (r : Row) (n i : Nat) : cellAt (padTo r n) i = cellAt r i :=
  cellAt_append_replicate r (n - r.length) i

theorem padTo_length (r : Row) (n : Nat) : n ≤ (padTo r n).length := by
  unfold padTo
  simp
  omega

theorem cellAt_map_lt {l : Row} {i : Nat} (f : Value → Value) (h : i < l.length) :
    cellAt (l.map f) i = f (cellAt l i) := by
  induction l generalizing i with
  | nil => simp at h
  | cons v t ih =>
    cases i with
    | zero => rfl
    | succ k => simpa [cellAt] using ih (by simpa using h)

theorem withCol_rows (df : DataFrame) (c : String) (f : Row → Value) :
    (df.withCol c f).rows = df.rows.map (fun r => setAt r (colPos df.cols c) (f r)) := rfl

theorem getCell_withCol_self (df : DataFrame) (c : String) (f : Row → Value) (r : Row) :
    getCell (df.withCol c f).cols (setAt r (colPos df.cols c) (f r)) c = f r := by
  rcases h : colIdx df.cols c with _ | i
  · have hc : colIdx (df.cols ++ [c]) c = some df.cols.length := colIdx_append_self h
    simp [DataFrame.withCol, h, getCell, hc, colPos, cellAt_setAt_self]
  · simp [DataFrame.withCol, h, getCell, colPos, cellAt_setAt_self]

theorem getCell_withCol_ne (df : DataFrame) {c d : String} (f : Row → Value) (r : Row)
    (hdc : d ≠ c) :
    getCell (df.withCol c f).cols (setAt r (colPos df.cols c) (f r)) d =
      getCell df.cols r d := by
  rcases h : colIdx df.cols c with _ | i
  · rcases hd : colIdx df.cols d with _ | j
    · have h1 : colIdx (df.cols ++ [c]) d = none := colIdx_append_none hd hdc
      simp [DataFrame.withCol, h, getCell, h1, hd]
    · have h1 : colIdx (df.cols ++ [c]) d = some j := colIdx_append_left hd
      have h2 : j < df.cols.length := colIdx_lt hd
      simp only [DataFrame.withCol, h, Option.isSome_none, Bool.false_eq_true, if_false,
        getCell, h1, hd, colPos, Option.getD_none]
      exact cellAt_setAt_ne r (f r) (by omega)
  · rcases hd : colIdx df.cols d with _ | j
    · simp [DataFrame.withCol, h, getCell, hd]
    · simp only [DataFrame.withCol, h, Option.isSome_some, if_true, getCell, hd, colPos,
        Option.getD_some]
      exact cellAt_setAt_ne r (f r) (colIdx_ne hd h hdc)

theorem colIdx_withCol_isSome (df : DataFrame) (c : String) (f : Row → Value) :
    (colIdx (df.withCol c f).cols c).isSome := by
  rcases h : colIdx df.cols c with _ | i
  · simp [DataFrame.withCol, h, colIdx_append_self h]
  · simp [DataFrame.withCol, h]

theorem colIdx_withCol_mono (df : DataFrame) (c d : String) (f : Row → Value)
    (h : (colIdx df.cols d).isSome) : (colIdx (df.withCol c f).cols d).isSome := by
  rcases hd : colIdx df.cols d with _ | j
  · simp [hd] at h
  · rcases hc : colIdx df.cols c with _ | i
    · simp [DataFrame.withCol, hc, colIdx_append_left hd]
    · simp [DataFrame.withCol, hc, hd]

theorem getCell_fillna0 (df : DataFrame) (r : Row) (c : String)
    (h : (colIdx df.cols c).isSome) :
    getCell df.cols ((padTo r df.cols.length).map fillVal) c =
      fillVal (getCell df.cols r c) := by
  rcases hc : colIdx df.cols c with _ | i
  · simp [hc] at h
  · have hi : i < df.cols.length := colIdx_lt hc
    have hlen : i < (padTo r df.cols.length).length :=
      Nat.lt_of_lt_of_le hi (padTo_length r df.cols.length)
    simp only [getCell, hc]
    rw [cellAt_map_lt fillVal hlen, cellAt_padTo]

/-! ### The rendering of a number never contains the mark keyword `"空单"` -/

theorem digitChar_val_lt (n : Nat) : (digitChar n).val < 128 := by
  unfold digitChar
  repeat' split
  all_goals decide

theorem mem_natCharsAux {c : Char} :
    ∀ (fuel n : Nat) (acc : List Char), c ∈ natCharsAux fuel n acc →
      c ∈ acc ∨ ∃ d, c = digitChar d := by
  intro fuel
  induction fuel with
  | zero => intro n acc h; exact Or.inl h
  | succ f ih =>
    intro n acc h
    simp only [natCharsAux] at h
    split at h
    · rcases List.mem_cons.mp h with h1 | h1
      · exact Or.inr ⟨n % 10, h1⟩
      · exact Or.inl h1
    · rcases ih _ _ h with h1 | h1
      · rcases List.mem_cons.mp h1 with h2 | h2
        · exact Or.inr ⟨n % 10, h2⟩
        · exact Or.inl h2
      · exact Or.inr h1

theorem mem_natChars_val {c : Char} {n : Nat} (h : c ∈ natChars n) : c.val < 128 := by
  rcases mem_natCharsAux (n + 1) n [] h with h1 | ⟨d, rfl⟩
  · simp at h1
  · exact digitChar_val_lt d

theorem mem_ratChars_val {c : Char} {q : ℚ} (h : c ∈ ratChars q) : c.val < 128 := by
  unfold ratChars at h
  rcases List.mem_append.mp h with h1 | h1
  · rcases List.mem_append.mp h1 with h2 | h2
    · split at h2
      · simp at h2
        subst h2
        decide
      · simp at h2
    · exact mem_natChars_val h2
  · split at h1
    · simp at h1
    · rcases List.mem_cons.mp h1 with h2 | h2
      · subst h2
        decide
      · exact mem_natChars_val h2

theorem startsWithL_mem {pat s : List Char} (h : startsWithL pat s = true) :
    ∀ c ∈ pat, c ∈ s := by
  induction pat generalizing s with
  | nil => simp
  | cons p ps ih =>
    cases s with
    | nil => simp [startsWithL] at h
    | cons d ds =>
      simp only [startsWithL, Bool.and_eq_true, beq_iff_eq] at h
      intro c hc
      rcases List.mem_cons.mp hc with h1 | h1
      · exact List.mem_cons.mpr (Or.inl (h1.trans h.1))
      · exact List.mem_cons.mpr (Or.inr (ih h.2 c h1))

theorem hasSubList_mem {pat s : List Char} (h : hasSubList pat s = true) :
    ∀ c ∈ pat, c ∈ s := by
  induction s with
  | nil =>
    simp only [hasSubList, List.isEmpty_iff] at h
    subst h
    simp
  | cons d ds ih =>
    simp only [hasSubList, Bool.or_eq_true] at h
    rcases h with h1 | h1
    · exact startsWithL_mem h1
    · intro c hc
      exact List.mem_cons.mpr (Or.inr (ih h1 c hc))

theorem ratToStr_not_kongdan (q : ℚ) : containsSub (ratToStr q) "空单" = false := by
  rcases h : containsSub (ratToStr q) "空单" with _ | _
  · rfl
  · exfalso
    have hmem : '空' ∈ ratChars q := hasSubList_mem h '空' (by decide)
    have := mem_ratChars_val hmem
    revert this
    decide

/-! ### Stability of the cleaning pass (towards idempotence) -/

theorem head?_mem {α : Type} {l : List α} {a : α} (h : l.head? = some a) : a ∈ l := by
  cases l with
  | nil => simp at h
  | cons x xs =>
    simp at h
    simp [h]

theorem detectCols_sub {kws cols : List String} {c : String}
    (h : c ∈ detectCols kws cols) : c ∈ cols :=
  List.mem_of_mem_filter h

theorem amountColOf_mem {cols : List String} {ac : String}
    (h : amountColOf cols = some ac) : ac ∈ cols :=
  detectCols_sub (head?_mem h)

theorem getCell_setAt_self {cols : List String} {c : String} (hc : c ∈ cols)
    (r : Row) (v : Value) : getCell cols (setAt r (colPos cols c) v) c = v := by
  rcases h : colIdx cols c with _ | i
  · have h2 := colIdx_of_mem hc
    rw [h] at h2
    simp at h2
  · simp only [getCell, h, colPos, Option.getD_some]
    exact cellAt_setAt_self r i v

theorem getCell_setAt_ne {cols : List String} {c d : String} (hc : c ∈ cols)
    (hdc : d ≠ c) (r : Row) (v : Value) :
    getCell cols (setAt r (colPos cols c) v) d = getCell cols r d := by
  rcases h : colIdx cols c with _ | i
  · have h2 := colIdx_of_mem hc
    rw [h] at h2
    simp at h2
  · rcases hd : colIdx cols d with _ | j
    · simp [getCell, hd]
    · simp only [getCell, hd, colPos, h, Option.getD_some]
      exact cellAt_setAt_ne r v (colIdx_ne hd h hdc)

theorem getCell_coerceAmount_self {cols : List String} {ac : String}
    (h : amountColOf cols = some ac) (r : Row) :
    getCell cols (coerceAmount cols r) ac =
      Value.num (toNumericD (getCell cols r ac) 0) := by
  unfold coerceAmount
  rw [h]
  exact getCell_setAt_self (amountColOf_mem h) r _

theorem getCell_coerceAmount_ne {cols : List String} {ac d : String}
    (h : amountColOf cols = some ac) (hd : d ≠ ac) (r : Row) :
    getCell cols (coerceAmount cols r) d = getCell cols r d := by
  unfold coerceAmount
  rw [h]
  exact getCell_setAt_ne (amountColOf_mem h) hd r _

theorem coerce_coerce (cols : List String) (r : Row) :
    coerceAmount cols (coerceAmount cols r) = coerceAmount cols r := by
  rcases h : amountColOf cols with _ | ac
  · unfold coerceAmount
    rw [h]
  · have e : ∀ s : Row, coerceAmount cols s =
        setAt s (colPos cols ac) (Value.num (toNumericD (getCell cols s ac) 0)) := by
      intro s
      unfold coerceAmount
      rw [h]
    rw [e (coerceAmount cols r), getCell_coerceAmount_self h r]
    have h2 : toNumericD (Value.num (toNumericD (getCell cols r ac) 0)) 0 =
        toNumericD (getCell cols r ac) 0 := rfl
    rw [h2, e r, setAt_setAt]

theorem markPass_coerce {cols : List String} {r : Row}
    (h : markPass cols r = true) : markPass cols (coerceAmount cols r) = true := by
  unfold markPass at h ⊢
  rcases hmc : (detectCols markKeywords cols).head? with _ | mc
  · rfl
  · rw [hmc] at h
    have h3 : (!containsSub (getCell cols r mc).toStr "空单") = true := h
    show (!containsSub (getCell cols (coerceAmount cols r) mc).toStr "空单") = true
    rcases hac : amountColOf cols with _ | ac
    · unfold coerceAmount
      rw [hac]
      exact h3
    · by_cases hmca : mc = ac
      · subst hmca
        rw [getCell_coerceAmount_self hac r]
        simp only [Value.toStr, ratToStr_not_kongdan, Bool.not_false]
      · rw [getCell_coerceAmount_ne hac hmca r]
        exact h3

theorem cleanBase_mem_stable (df : DataFrame) {r : Row} (h : r ∈ cleanBase df) :
    markPass df.cols r = true ∧ statusPass df.cols r = true ∧
      coerceAmount df.cols r = r := by
  unfold cleanBase at h
  rcases List.mem_map.mp h with ⟨pr, hpr, rfl⟩
  rcases List.mem_filter.mp hpr with ⟨hpr1, hpr2⟩
  rcases List.mem_map.mp hpr1 with ⟨r0, _, rfl⟩
  simp only [Bool.and_eq_true] at hpr2
  exact ⟨markPass_coerce hpr2.1, hpr2.2, coerce_coerce df.cols r0⟩

theorem cleanBase_stable {cols : List String} {l : List Row}
    (h : ∀ r ∈ l, markPass cols r = true ∧ statusPass cols r = true ∧
      coerceAmount cols r = r) :
    cleanBase ⟨cols, l⟩ = l := by
  unfold cleanBase
  simp only []
  induction l with
  | nil => rfl
  | cons r t ih =>
    have hr := h r (List.mem_cons_self r t)
    have ht := ih (fun x hx => h x (List.mem_cons_of_mem r hx))
    simp only [List.map_cons, List.filter_cons, hr.2.2, hr.1, hr.2.1, Bool.and_self,
      if_true, List.map_cons] at ht ⊢
    rw [ht]

theorem monetaryFilter_sub (cols : List String) (l : List Row) :
    ∀ r ∈ monetaryFilter cols l, r ∈ l := by
  unfold monetaryFilter
  rcases amountColOf cols with _ | ac
  · exact fun r h => h
  · rcases orderIdColOf cols with _ | oc
    · exact fun r h => List.mem_of_mem_filter h
    · exact fun r h => List.mem_of_mem_filter h

theorem clean_rows_empty_shops (df : DataFrame) :
    (cleanOrderData df []).rows = monetaryFilter df.cols (cleanBase df) := by
  unfold cleanOrderData
  exact List.filter_eq_self.mpr (fun a _ => rfl)

theorem DataFrame.eq_of : ∀ (a b : DataFrame), a.cols = b.cols → a.rows = b.rows → a = b
  | ⟨_, _⟩, ⟨_, _⟩, rfl, rfl => rfl

theorem monetaryFilter_none {cols : List String} (h : amountColOf cols = none)
    (l : List Row) : monetaryFilter cols l = l := by
  unfold monetaryFilter
  rw [h]

theorem monetaryFilter_row {cols : List String} {ac : String}
    (h1 : amountColOf cols = some ac) (h2 : orderIdColOf cols = none) (l : List Row) :
    monetaryFilter cols l = l.filter (fun r => decide (0 < numOf (getCell cols r ac))) := by
  unfold monetaryFilter
  rw [h1, h2]

theorem monetaryFilter_group {cols : List String} {ac oc : String}
    (h1 : amountColOf cols = some ac) (h2 : orderIdColOf cols = some oc) (l : List Row) :
    monetaryFilter cols l = l.filter (fun r =>
      !(getCell cols r oc == Value.null) &&
        decide (0 < groupSum cols l oc ac (getCell cols r oc))) := by
  unfold monetaryFilter
  rw [h1, h2]

/-- C9 (amended) — Cleaning restricted to an empty shop filter is
idempotent: applying `clean_order_data` (with no shop selection) to its own
output reproduces that output exactly, so in particular the row count does
not change on a second pass.  (With a non-empty shop filter idempotence
fails, because the shop filter runs after the order-level monetary filter
and can split a surviving order group; see the C9 counterexample.) -/
theorem cleanOrderData_idem (df : DataFrame) :
    cleanOrderData (cleanOrderData df []) [] = cleanOrderData df [] := by
  have hstab : ∀ r ∈ (cleanOrderData df []).rows,
      markPass df.cols r = true ∧ statusPass df.cols r = true ∧
        coerceAmount df.cols r = r := by
    intro r hr
    rw [clean_rows_empty_shops df] at hr
    exact cleanBase_mem_stable df (monetaryFilter_sub _ _ r hr)
  have hbase : cleanBase (cleanOrderData df []) = (cleanOrderData df []).rows :=
    cleanBase_stable hstab
  have hmf : monetaryFilter df.cols (cleanOrderData df []).rows =
      (cleanOrderData df []).rows := by
    have hout_rows := clean_rows_empty_shops df
    rcases hac : amountColOf df.cols with _ | ac
    · exact monetaryFilter_none hac _
    · rcases hoc : orderIdColOf df.cols with _ | oc
      · rw [monetaryFilter_row hac hoc]
        apply List.filter_eq_self.mpr
        intro r hr
        rw [hout_rows, monetaryFilter_row hac hoc] at hr
        exact (List.mem_filter.mp hr).2
      · rw [monetaryFilter_group hac hoc]
        apply List.filter_eq_self.mpr
        intro r hr
        have hr2 := hr
        rw [hout_rows, monetaryFilter_group hac hoc] at hr2
        obtain ⟨hrb, hpred⟩ := List.mem_filter.mp hr2
        simp only [Bool.and_eq_true, Bool.not_eq_true', decide_eq_true_eq] at hpred
        have hgrp : (cleanOrderData df []).rows.filter
              (fun s => getCell df.cols s oc == getCell df.cols r oc) =
            (cleanBase df).filter
              (fun s => getCell df.cols s oc == getCell df.cols r oc) := by
          rw [hout_rows, monetaryFilter_group hac hoc, List.filter_filter]
          apply List.filter_congr
          intro s _
          rcases hks : (getCell df.cols s oc == getCell df.cols r oc) with _ | _
          · simp
          · have hkeq : getCell df.cols s oc = getCell df.cols r oc := by
              exact beq_iff_eq.mp hks
            simp [hks, hkeq, hpred.1, hpred.2]
        have hsum : groupSum df.cols (cleanOrderData df []).rows oc ac
              (getCell df.cols r oc) =
            groupSum df.cols (cleanBase df) oc ac (getCell df.cols r oc) := by
          unfold groupSum
          rw [hgrp]
        simp only [Bool.and_eq_true, Bool.not_eq_true', decide_eq_true_eq, hsum]
        exact ⟨hpred.1, hpred.2⟩
  apply DataFrame.eq_of
  · rfl
  · rw [clean_rows_empty_shops (cleanOrderData df [])]
    show monetaryFilter df.cols (cleanBase (cleanOrderData df [])) =
      (cleanOrderData df []).rows
    rw [hbase]
    exact hmf


/-! ### The best-so-far fold picks the first pairing attaining the maximum score -/

theorem pickAux_spec {α : Type} :
    ∀ (l : List (α × Nat)) (b : Option α) (cnt : Nat),
      ((pickAux l (b, cnt)).2 = cnt ∧ (pickAux l (b, cnt)).1 = b ∧
        ∀ x ∈ l, x.2 ≤ cnt) ∨
      (∃ i, ∃ h : i < l.length,
        (pickAux l (b, cnt)).1 = some (l.get ⟨i, h⟩).1 ∧
        (pickAux l (b, cnt)).2 = (l.get ⟨i, h⟩).2 ∧
        cnt < (l.get ⟨i, h⟩).2 ∧
        (∀ x ∈ l, x.2 ≤ (l.get ⟨i, h⟩).2) ∧
        ∀ j (hj : j < i), (l.get ⟨j, by omega⟩).2 < (l.get ⟨i, h⟩).2) := by
  intro l
  induction l with
  | nil =>
    intro b cnt
    exact Or.inl ⟨rfl, rfl, by simp⟩
  | cons hd tl ih =>
    intro b cnt
    rcases hd with ⟨a, c⟩
    by_cases hc : cnt < c
    · have step : pickAux ((a, c) :: tl) (b, cnt) = pickAux tl (some a, c) := by
        simp [pickAux, hc]
      rcases ih (some a) c with ⟨h1, h2, h3⟩ | ⟨i, hi, h1, h2, h3, h4, h5⟩
      · refine Or.inr ⟨0, by simp, ?_, ?_, ?_, ?_, ?_⟩
        · rw [step, h2]
          simp
        · rw [step, h1]
          simp
        · simpa using hc
        · intro x hx
          rcases List.mem_cons.mp hx with h | h
          · simp [h]
          · simpa using h3 x h
        · intro j hj
          omega
      · refine Or.inr ⟨i + 1, by simpa using hi, ?_, ?_, ?_, ?_, ?_⟩
        · rw [step, h1]
          simp
        · rw [step, h2]
          simp
        · simp only [List.get_cons_succ]
          omega
        · intro x hx
          rcases List.mem_cons.mp hx with h | h
          · simp only [List.get_cons_succ, h]
            omega
          · simpa using h4 x h
        · intro j hj
          cases j with
          | zero =>
            simp only [List.get_cons_succ]
            show c < (tl.get ⟨i, hi⟩).2
            omega
          | succ k =>
            simp only [List.get_cons_succ]
            exact h5 k (by omega)
    · have step : pickAux ((a, c) :: tl) (b, cnt) = pickAux tl (b, cnt) := by
        simp [pickAux, hc]
      rcases ih b cnt with ⟨h1, h2, h3⟩ | ⟨i, hi, h1, h2, h3, h4, h5⟩
      · refine Or.inl ⟨by rw [step, h1], by rw [step, h2], ?_⟩
        intro x hx
        rcases List.mem_cons.mp hx with h | h
        · simp [h]
          omega
        · exact h3 x h
      · refine Or.inr ⟨i + 1, by simpa using hi, ?_, ?_, ?_, ?_, ?_⟩
        · rw [step, h1]
          simp
        · rw [step, h2]
          simp
        · simp only [List.get_cons_succ]
          omega
        · intro x hx
          rcases List.mem_cons.mp hx with h | h
          · simp only [List.get_cons_succ, h]
            omega
          · simpa using h4 x h
        · intro j hj
          cases j with
          | zero =>
            simp only [List.get_cons_succ]
            show c < (tl.get ⟨i, hi⟩).2
            omega
          | succ k =>
            simp only [List.get_cons_succ]
            exact h5 k (by omega)

/-! ### Cell values of the cost-computation output -/

theorem mem_withCol {df : DataFrame} {c : String} {f : Row → Value} {r : Row}
    (h : r ∈ (df.withCol c f).rows) :
    ∃ r0 ∈ df.rows, r = setAt r0 (colPos df.cols c) (f r0) := by
  rw [withCol_rows] at h
  rcases List.mem_map.mp h with ⟨r0, h0, he⟩
  exact ⟨r0, h0, he.symm⟩

theorem detectCols_withCol {kws : List String} (df : DataFrame) (c : String) (f : Row → Value)
    (hc : kws.any (fun k => containsSub (toLowerStr c) k) = false) :
    detectCols kws (df.withCol c f).cols = detectCols kws df.cols := by
  unfold DataFrame.withCol
  split
  · rfl
  · show detectCols kws (df.cols ++ [c]) = detectCols kws df.cols
    unfold detectCols
    rw [List.filter_append]
    simp [hc]

theorem ccD7_cells (p? : Option DataFrame) (m : DataFrame) (now : String) :
    ∀ r ∈ (ccD7 p? m now).rows, ∃ u q rev : ℚ,
      (∃ r0 ∈ m.rows, u = unitCostVal p? m r0) ∧
      (∃ ra : Row, q = qtyVal p? m ra) ∧
      (∃ rb : Row, rev = revenueVal p? m rb) ∧
      getCell (ccD7 p? m now).cols r "单位成本" = Value.num u ∧
      getCell (ccD7 p? m now).cols r "数量" = Value.num q ∧
      getCell (ccD7 p? m now).cols r "销售收入" = Value.num rev ∧
      getCell (ccD7 p? m now).cols r "总成本" = Value.num (round2 (u * q)) ∧
      getCell (ccD7 p? m now).cols r "利润" =
        Value.num (round2 (rev - round2 (u * q))) ∧
      getCell (ccD7 p? m now).cols r "毛利率" =
        Value.num (if 0 < rev then round4 (round2 (rev - round2 (u * q)) / rev) else 0) := by
  intro r hr
  have hr7 : r ∈ ((ccD6 p? m).withCol "数据处理时间" (fun _ => Value.str now)).rows := hr
  rcases mem_withCol hr7 with ⟨r6, hr6, hre7⟩
  have hr6m : r6 ∈ ((ccD5 p? m).withCol "毛利率" (fun s =>
      Value.num (if 0 < numOf (getCell (ccD5 p? m).cols s "销售收入") then
        round4 (numOf (getCell (ccD5 p? m).cols s "利润") /
          numOf (getCell (ccD5 p? m).cols s "销售收入")) else 0))).rows := hr6
  rcases mem_withCol hr6m with ⟨r5, hr5, hre6⟩
  have hr5m : r5 ∈ ((ccD4 p? m).withCol "利润" (fun s =>
      Value.num (round2 (numOf (getCell (ccD4 p? m).cols s "销售收入") -
        numOf (getCell (ccD4 p? m).cols s "总成本"))))).rows := hr5
  rcases mem_withCol hr5m with ⟨r4, hr4, hre5⟩
  have hr4m : r4 ∈ ((ccD3 p? m).withCol "总成本" (fun s =>
      Value.num (round2 (numOf (getCell (ccD3 p? m).cols s "单位成本") *
        numOf (getCell (ccD3 p? m).cols s "数量"))))).rows := hr4
  rcases mem_withCol hr4m with ⟨r3, hr3, hre4⟩
  have hr3m : r3 ∈ ((ccD2 p? m).withCol "销售收入" (fun s =>
      Value.num (revenueVal p? m s))).rows := hr3
  rcases mem_withCol hr3m with ⟨r2, hr2, hre3⟩
  have hr2m : r2 ∈ ((ccD1 p? m).withCol "数量" (fun s =>
      Value.num (qtyVal p? m s))).rows := hr2
  rcases mem_withCol hr2m with ⟨r1, hr1, hre2⟩
  have hr1m : r1 ∈ (m.withCol "单位成本" (fun s =>
      Value.num (unitCostVal p? m s))).rows := hr1
  rcases mem_withCol hr1m with ⟨r0, hr0, hre1⟩
  refine ⟨unitCostVal p? m r0, qtyVal p? m r1, revenueVal p? m r2,
    ⟨r0, hr0, rfl⟩, ⟨r1, rfl⟩, ⟨r2, rfl⟩, ?_, ?_, ?_, ?_, ?_, ?_⟩
  all_goals {
    -- cell values at each intermediate stage
    have g1u : getCell (ccD1 p? m).cols r1 "单位成本" =
        Value.num (unitCostVal p? m r0) := by
      rw [hre1]
      exact getCell_withCol_self m "单位成本" _ r0
    have g2u : getCell (ccD2 p? m).cols r2 "单位成本" =
        Value.num (unitCostVal p? m r0) := by
      rw [hre2]
      unfold ccD2
      rw [getCell_withCol_ne (ccD1 p? m) _ r1 (by decide)]
      exact g1u
    have g2q : getCell (ccD2 p? m).cols r2 "数量" =
        Value.num (qtyVal p? m r1) := by
      rw [hre2]
      exact getCell_withCol_self (ccD1 p? m) "数量" _ r1
    have g3u : getCell (ccD3 p? m).cols r3 "单位成本" =
        Value.num (unitCostVal p? m r0) := by
      rw [hre3]
      unfold ccD3
      rw [getCell_withCol_ne (ccD2 p? m) _ r2 (by decide)]
      exact g2u
    have g3q : getCell (ccD3 p? m).cols r3 "数量" =
        Value.num (qtyVal p? m r1) := by
      rw [hre3]
      unfold ccD3
      rw [getCell_withCol_ne (ccD2 p? m) _ r2 (by decide)]
      exact g2q
    have g3r : getCell (ccD3 p? m).cols r3 "销售收入" =
        Value.num (revenueVal p? m r2) := by
      rw [hre3]
      exact getCell_withCol_self (ccD2 p? m) "销售收入" _ r2
    have g4u : getCell (ccD4 p? m).cols r4 "单位成本" =
        Value.num (unitCostVal p? m r0) := by
      rw [hre4]
      unfold ccD4
      rw [getCell_withCol_ne (ccD3 p? m) _ r3 (by decide)]
      exact g3u
    have g4q : getCell (ccD4 p? m).cols r4 "数量" =
        Value.num (qtyVal p? m r1) := by
      rw [hre4]
      unfold ccD4
      rw [getCell_withCol_ne (ccD3 p? m) _ r3 (by decide)]
      exact g3q
    have g4r : getCell (ccD4 p? m).cols r4 "销售收入" =
        Value.num (revenueVal p? m r2) := by
      rw [hre4]
      unfold ccD4
      rw [getCell_withCol_ne (ccD3 p? m) _ r3 (by decide)]
      exact g3r
    have g4t : getCell (ccD4 p? m).cols r4 "总成本" =
        Value.num (round2 (unitCostVal p? m r0 * qtyVal p? m r1)) := by
      rw [hre4]
      unfold ccD4
      have := getCell_withCol_self (ccD3 p? m) "总成本" (fun s =>
        Value.num (round2 (numOf (getCell (ccD3 p? m).cols s "单位成本") *
          numOf (getCell (ccD3 p? m).cols s "数量")))) r3
      rw [this, g3u, g3q]
      rfl
    have g5u : getCell (ccD5 p? m).cols r5 "单位成本" =
        Value.num (unitCostVal p? m r0) := by
      rw [hre5]
      unfold ccD5
      rw [getCell_withCol_ne (ccD4 p? m) _ r4 (by decide)]
      exact g4u
    have g5q : getCell (ccD5 p? m).cols r5 "数量" =
        Value.num (qtyVal p? m r1) := by
      rw [hre5]
      unfold ccD5
      rw [getCell_withCol_ne (ccD4 p? m) _ r4 (by decide)]
      exact g4q
    have g5r : getCell (ccD5 p? m).cols r5 "销售收入" =
        Value.num (revenueVal p? m r2) := by
      rw [hre5]
      unfold ccD5
      rw [getCell_withCol_ne (ccD4 p? m) _ r4 (by decide)]
      exact g4r
    have g5t : getCell (ccD5 p? m).cols r5 "总成本" =
        Value.num (round2 (unitCostVal p? m r0 * qtyVal p? m r1)) := by
      rw [hre5]
      unfold ccD5
      rw [getCell_withCol_ne (ccD4 p? m) _ r4 (by decide)]
      exact g4t
    have g5p : getCell (ccD5 p? m).cols r5 "利润" =
        Value.num (round2 (revenueVal p? m r2 -
          round2 (unitCostVal p? m r0 * qtyVal p? m r1))) := by
      rw [hre5]
      unfold ccD5
      have := getCell_withCol_self (ccD4 p? m) "利润" (fun s =>
        Value.num (round2 (numOf (getCell (ccD4 p? m).cols s "销售收入") -
          numOf (getCell (ccD4 p? m).cols s "总成本")))) r4
      rw [this, g4r, g4t]
      rfl
    have g6u : getCell (ccD6 p? m).cols r6 "单位成本" =
        Value.num (unitCostVal p? m r0) := by
      rw [hre6]
      unfold ccD6
      rw [getCell_withCol_ne (ccD5 p? m) _ r5 (by decide)]
      exact g5u
    have g6q : getCell (ccD6 p? m).cols r6 "数量" =
        Value.num (qtyVal p? m r1) := by
      rw [hre6]
      unfold ccD6
      rw [getCell_withCol_ne (ccD5 p? m) _ r5 (by decide)]
      exact g5q
    have g6r : getCell (ccD6 p? m).cols r6 "销售收入" =
        Value.num (revenueVal p? m r2) := by
      rw [hre6]
      unfold ccD6
      rw [getCell_withCol_ne (ccD5 p? m) _ r5 (by decide)]
      exact g5r
    have g6t : getCell (ccD6 p? m).cols r6 "总成本" =
        Value.num (round2 (unitCostVal p? m r0 * qtyVal p? m r1)) := by
      rw [hre6]
      unfold ccD6
      rw [getCell_withCol_ne (ccD5 p? m) _ r5 (by decide)]
      exact g5t
    have g6p : getCell (ccD6 p? m).cols r6 "利润" =
        Value.num (round2 (revenueVal p? m r2 -
          round2 (unitCostVal p? m r0 * qtyVal p? m r1))) := by
      rw [hre6]
      unfold ccD6
      rw [getCell_withCol_ne (ccD5 p? m) _ r5 (by decide)]
      exact g5p
    have g6m : getCell (ccD6 p? m).cols r6 "毛利率" =
        Value.num (if 0 < revenueVal p? m r2 then
          round4 (round2 (revenueVal p? m r2 -
            round2 (unitCostVal p? m r0 * qtyVal p? m r1)) / revenueVal p? m r2)
          else 0) := by
      rw [hre6]
      unfold ccD6
      have := getCell_withCol_self (ccD5 p? m) "毛利率" (fun s =>
        Value.num (if 0 < numOf (getCell (ccD5 p? m).cols s "销售收入") then
          round4 (numOf (getCell (ccD5 p? m).cols s "利润") /
            numOf (getCell (ccD5 p? m).cols s "销售收入")) else 0)) r5
      rw [this, g5r, g5p]
      rfl
    have step7 : ∀ d : String, d ≠ "数据处理时间" →
        getCell (ccD7 p? m now).cols r d = getCell (ccD6 p? m).cols r6 d := by
      intro d hd
      rw [hre7]
      unfold ccD7
      rw [getCell_withCol_ne (ccD6 p? m) _ r6 hd]
    first
    | (rw [step7 "单位成本" (by decide)]; exact g6u)
    | (rw [step7 "数量" (by decide)]; exact g6q)
    | (rw [step7 "销售收入" (by decide)]; exact g6r)
    | (rw [step7 "总成本" (by decide)]; exact g6t)
    | (rw [step7 "利润" (by decide)]; exact g6p)
    | (rw [step7 "毛利率" (by decide)]; exact g6m)
  }

theorem fillVal_num (q : ℚ) : fillVal (Value.num q) = Value.num q := rfl

theorem ccD7_has_cols (p? : Option DataFrame) (m : DataFrame) (now : String) :
    ∀ c ∈ ["单位成本", "数量", "销售收入", "总成本", "利润", "毛利率"],
      (colIdx (ccD7 p? m now).cols c).isSome := by
  have i1 : (colIdx (ccD1 p? m).cols "单位成本").isSome :=
    colIdx_withCol_isSome m "单位成本" _
  have i2 : (colIdx (ccD2 p? m).cols "单位成本").isSome :=
    colIdx_withCol_mono (ccD1 p? m) "数量" "单位成本" _ i1
  have j2 : (colIdx (ccD2 p? m).cols "数量").isSome :=
    colIdx_withCol_isSome (ccD1 p? m) "数量" _
  have i3 : (colIdx (ccD3 p? m).cols "单位成本").isSome :=
    colIdx_withCol_mono (ccD2 p? m) "销售收入" "单位成本" _ i2
  have j3 : (colIdx (ccD3 p? m).cols "数量").isSome :=
    colIdx_withCol_mono (ccD2 p? m) "销售收入" "数量" _ j2
  have k3 : (colIdx (ccD3 p? m).cols "销售收入").isSome :=
    colIdx_withCol_isSome (ccD2 p? m) "销售收入" _
  have i4 : (colIdx (ccD4 p? m).cols "单位成本").isSome :=
    colIdx_withCol_mono (ccD3 p? m) "总成本" "单位成本" _ i3
  have j4 : (colIdx (ccD4 p? m).cols "数量").isSome :=
    colIdx_withCol_mono (ccD3 p? m) "总成本" "数量" _ j3
  have k4 : (colIdx (ccD4 p? m).cols "销售收入").isSome :=
    colIdx_withCol_mono (ccD3 p? m) "总成本" "销售收入" _ k3
  have t4 : (colIdx (ccD4 p? m).cols "总成本").isSome :=
    colIdx_withCol_isSome (ccD3 p? m) "总成本" _
  have i5 : (colIdx (ccD5 p? m).cols "单位成本").isSome :=
    colIdx_withCol_mono (ccD4 p? m) "利润" "单位成本" _ i4
  have j5 : (colIdx (ccD5 p? m).cols "数量").isSome :=
    colIdx_withCol_mono (ccD4 p? m) "利润" "数量" _ j4
  have k5 : (colIdx (ccD5 p? m).cols "销售收入").isSome :=
    colIdx_withCol_mono (ccD4 p? m) "利润" "销售收入" _ k4
  have t5 : (colIdx (ccD5 p? m).cols "总成本").isSome :=
    colIdx_withCol_mono (ccD4 p? m) "利润" "总成本" _ t4
  have p5 : (colIdx (ccD5 p? m).cols "利润").isSome :=
    colIdx_withCol_isSome (ccD4 p? m) "利润" _
  have i6 : (colIdx (ccD6 p? m).cols "单位成本").isSome :=
    colIdx_withCol_mono (ccD5 p? m) "毛利率" "单位成本" _ i5
  have j6 : (colIdx (ccD6 p? m).cols "数量").isSome :=
    colIdx_withCol_mono (ccD5 p? m) "毛利率" "数量" _ j5
  have k6 : (colIdx (ccD6 p? m).cols "销售收入").isSome :=
    colIdx_withCol_mono (ccD5 p? m) "毛利率" "销售收入" _ k5
  have t6 : (colIdx (ccD6 p? m).cols "总成本").isSome :=
    colIdx_withCol_mono (ccD5 p? m) "毛利率" "总成本" _ t5
  have p6 : (colIdx (ccD6 p? m).cols "利润").isSome :=
    colIdx_withCol_mono (ccD5 p? m) "毛利率" "利润" _ p5
  have m6 : (colIdx (ccD6 p? m).cols "毛利率").isSome :=
    colIdx_withCol_isSome (ccD5 p? m) "毛利率" _
  intro c hc
  simp only [List.mem_cons, List.mem_singleton, List.not_mem_nil, or_false] at hc
  rcases hc with rfl | rfl | rfl | rfl | rfl | rfl
  · exact colIdx_withCol_mono (ccD6 p? m) "数据处理时间" "单位成本" _ i6
  · exact colIdx_withCol_mono (ccD6 p? m) "数据处理时间" "数量" _ j6
  · exact colIdx_withCol_mono (ccD6 p? m) "数据处理时间" "销售收入" _ k6
  · exact colIdx_withCol_mono (ccD6 p? m) "数据处理时间" "总成本" _ t6
  · exact colIdx_withCol_mono (ccD6 p? m) "数据处理时间" "利润" _ p6
  · exact colIdx_withCol_mono (ccD6 p? m) "数据处理时间" "毛利率" _ m6

/-! ### Claim theorems -/

/-- C5 — For every row of the dataset produced by the cost-computation stage
(`calculate_costs_and_profits`), the derived fields satisfy
`总成本 = round(单位成本 * 数量, 2)`, `利润 = round(销售收入 - 总成本, 2)`, and
`毛利率 = round(利润 / 销售收入, 4)` when the revenue is positive and `0`
otherwise; the unit cost defaults to 0 for every row when no qualifying
catalog-side cost column exists, and the quantity defaults to 1 for every
row when no quantity column exists (a per-row unparseable quantity also
coerces to the default 1, by definition of `qtyVal`). -/
theorem c5_cost_profit_margin_formulas (product? : Option DataFrame)
    (matched : DataFrame) (now : String) :
    (∀ r ∈ (calculateCostsAndProfits product? matched now).rows,
      getCell (calculateCostsAndProfits product? matched now).cols r "总成本" =
        Value.num (round2
          (numOf (getCell (calculateCostsAndProfits product? matched now).cols r "单位成本") *
            numOf (getCell (calculateCostsAndProfits product? matched now).cols r "数量"))) ∧
      getCell (calculateCostsAndProfits product? matched now).cols r "利润" =
        Value.num (round2
          (numOf (getCell (calculateCostsAndProfits product? matched now).cols r "销售收入") -
            numOf (getCell (calculateCostsAndProfits product? matched now).cols r "总成本"))) ∧
      getCell (calculateCostsAndProfits product? matched now).cols r "毛利率" =
        Value.num
          (if 0 < numOf (getCell (calculateCostsAndProfits product? matched now).cols r "销售收入")
            then round4
              (numOf (getCell (calculateCostsAndProfits product? matched now).cols r "利润") /
                numOf (getCell (calculateCostsAndProfits product? matched now).cols r "销售收入"))
            else 0)) ∧
    (costColOf product? matched.cols = none →
      ∀ r ∈ (calculateCostsAndProfits product? matched now).rows,
        getCell (calculateCostsAndProfits product? matched now).cols r "单位成本" =
          Value.num 0) ∧
    ((detectCols qtyKeywords matched.cols).head? = none →
      ∀ r ∈ (calculateCostsAndProfits product? matched now).rows,
        getCell (calculateCostsAndProfits product? matched now).cols r "数量" =
          Value.num 1) := by
  by_cases hemp : matched.rows.isEmpty
  · constructor
    · intro r hr
      unfold calculateCostsAndProfits at hr
      rw [if_pos hemp] at hr
      simp [DataFrame.empty] at hr
    · constructor
      · intro _ r hr
        unfold calculateCostsAndProfits at hr
        rw [if_pos hemp] at hr
        simp [DataFrame.empty] at hr
      · intro _ r hr
        unfold calculateCostsAndProfits at hr
        rw [if_pos hemp] at hr
        simp [DataFrame.empty] at hr
  · have hout : calculateCostsAndProfits product? matched now =
        (ccD7 product? matched now).fillna0 := by
      unfold calculateCostsAndProfits
      rw [if_neg hemp]
    have hcell : ∀ r ∈ (calculateCostsAndProfits product? matched now).rows,
        ∀ c ∈ ["单位成本", "数量", "销售收入", "总成本", "利润", "毛利率"],
        ∃ r7 ∈ (ccD7 product? matched now).rows,
          (∀ c2 ∈ ["单位成本", "数量", "销售收入", "总成本", "利润", "毛利率"],
            getCell (calculateCostsAndProfits product? matched now).cols r c2 =
              fillVal (getCell (ccD7 product? matched now).cols r7 c2)) := by
      intro r hr c _
      rw [hout] at hr
      rcases List.mem_map.mp hr with ⟨r7, hr7, hre⟩
      refine ⟨r7, hr7, ?_⟩
      intro c2 hc2
      rw [hout]
      show getCell (ccD7 product? matched now).cols r c2 = _
      rw [← hre]
      exact getCell_fillna0 (ccD7 product? matched now) r7 c2
        (ccD7_has_cols product? matched now c2 hc2)
    refine ⟨?_, ?_, ?_⟩
    · intro r hr
      rcases hcell r hr "单位成本" (by simp) with ⟨r7, hr7, hfv⟩
      rcases ccD7_cells product? matched now r7 hr7 with
        ⟨u, q, rev, _, _, _, hu, hq, hrev, ht, hp, hm⟩
      have du := hfv "单位成本" (by simp)
      have dq := hfv "数量" (by simp)
      have dr := hfv "销售收入" (by simp)
      have dt := hfv "总成本" (by simp)
      have dp := hfv "利润" (by simp)
      have dm := hfv "毛利率" (by simp)
      rw [hu] at du
      rw [hq] at dq
      rw [hrev] at dr
      rw [ht] at dt
      rw [hp] at dp
      rw [hm] at dm
      simp only [fillVal_num] at du dq dr dt dp dm
      rw [du, dq, dr, dt, dp, dm]
      exact ⟨rfl, rfl, rfl⟩
    · intro hcost r hr
      rcases hcell r hr "单位成本" (by simp) with ⟨r7, hr7, hfv⟩
      rcases ccD7_cells product? matched now r7 hr7 with
        ⟨u, q, rev, ⟨r0, _, hu0⟩, _, _, hu, _, _, _, _, _⟩
      have du := hfv "单位成本" (by simp)
      rw [hu] at du
      simp only [fillVal_num] at du
      rw [du]
      have : u = 0 := by
        rw [hu0]
        unfold unitCostVal
        rw [hcost]
      rw [this]
    · intro hqty r hr
      rcases hcell r hr "数量" (by simp) with ⟨r7, hr7, hfv⟩
      rcases ccD7_cells product? matched now r7 hr7 with
        ⟨u, q, rev, _, ⟨ra, hqa⟩, _, _, hq, _, _, _, _⟩
      have dq := hfv "数量" (by simp)
      rw [hq] at dq
      simp only [fillVal_num] at dq
      rw [dq]
      have hq1 : (detectCols qtyKeywords (ccD1 product? matched).cols).head? = none := by
        have e : detectCols qtyKeywords (ccD1 product? matched).cols =
            detectCols qtyKeywords matched.cols :=
          detectCols_withCol matched "单位成本" _ (by decide)
        rw [e, hqty]
      have : q = 1 := by
        rw [hqa]
        unfold qtyVal
        rw [hq1]
      rw [this]

/-- C1 — Order-level monetary filter of `clean_order_data`: when both an
amount column and an order-identifier column are detected, a base-filtered
row survives cleaning (no shop filter) exactly when its (non-null)
order-identifier group has a strictly positive coerced-amount sum — so every
row of a positive-sum group survives, including zero-amount rows, and no row
of a `≤ 0`-sum group survives; when no order-identifier column is detected,
exactly the rows with amount `> 0` survive. -/
theorem c1_order_level_amount_filter (df : DataFrame) :
    (∀ ac oc : String, amountColOf df.cols = some ac → orderIdColOf df.cols = some oc →
      ∀ r : Row, r ∈ (cleanOrderData df []).rows ↔
        (r ∈ cleanBase df ∧ ¬getCell df.cols r oc = Value.null ∧
          0 < groupSum df.cols (cleanBase df) oc ac (getCell df.cols r oc))) ∧
    (∀ ac : String, amountColOf df.cols = some ac → orderIdColOf df.cols = none →
      ∀ r : Row, r ∈ (cleanOrderData df []).rows ↔
        (r ∈ cleanBase df ∧ 0 < numOf (getCell df.cols r ac))) := by
  constructor
  · intro ac oc hac hoc r
    rw [clean_rows_empty_shops df, monetaryFilter_group hac hoc, List.mem_filter]
    simp only [Bool.and_eq_true, Bool.not_eq_true', beq_eq_false_iff_ne, ne_eq,
      decide_eq_true_eq]
  · intro ac hac hoc r
    rw [clean_rows_empty_shops df, monetaryFilter_row hac hoc, List.mem_filter]
    simp only [decide_eq_true_eq]

/-- Witness for C1: at the concrete two-line order `ordersS` (amount column
`实付`, identifier column `订单号`), the grouped clause applies to its first
row (the row survives because its group sums to 5 > 0 even though its own
amount is -5). -/
theorem c1_order_level_amount_filter_witness :
    [Value.str "1", Value.num (-5), Value.str "A"] ∈ (cleanOrderData ordersS []).rows ↔
      ([Value.str "1", Value.num (-5), Value.str "A"] ∈ cleanBase ordersS ∧
        ¬getCell ordersS.cols [Value.str "1", Value.num (-5), Value.str "A"] "订单号" =
          Value.null ∧
        0 < groupSum ordersS.cols (cleanBase ordersS) "订单号" "实付"
          (getCell ordersS.cols [Value.str "1", Value.num (-5), Value.str "A"] "订单号")) :=
  (c1_order_level_amount_filter ordersS).1 "实付" "订单号"
    (by decide) (by decide)
    [Value.str "1", Value.num (-5), Value.str "A"]

/-- C10 — Implicit no-amount-column fallback: when no column name contains
an amount keyword, cleaning applies no monetary filter at all — a row
survives exactly when it passes the mark/status base filter and the optional
shop filter, regardless of any zero or negative payment values. -/
theorem c10_no_amount_column_no_monetary_filter (df : DataFrame) (shops : List String)
    (h : amountColOf df.cols = none) :
    ∀ r : Row, r ∈ (cleanOrderData df shops).rows ↔
      (r ∈ cleanBase df ∧ shopPass df.cols shops r = true) := by
  intro r
  unfold cleanOrderData
  rw [monetaryFilter_none h, List.mem_filter]

/-- Witness for C10: `ordersN` has no amount-keyword column; its only row
(with no positive payment anywhere) is retained by cleaning. -/
theorem c10_no_amount_column_no_monetary_filter_witness :
    [Value.str "1", Value.str "红"] ∈ (cleanOrderData ordersN []).rows ↔
      ([Value.str "1", Value.str "红"] ∈ cleanBase ordersN ∧
        shopPass ordersN.cols [] [Value.str "1", Value.str "红"] = true) :=
  c10_no_amount_column_no_monetary_filter ordersN []
    (by decide) [Value.str "1", Value.str "红"]

/-- C3 — Best-pairing selection of `match_products_with_orders`: when the
catalog and the orders each have at least one SKU-candidate column and the
orders are non-empty (and, so that the embedding matches the source exactly,
no column name is shared between the two tables, which in pandas would
trigger suffix renaming and a `KeyError` in the scoring line), either every
evaluated (catalog-column, order-column) pairing scores 0 and the orders are
returned tagged `匹配状态 = 匹配失败`, or the returned join result is that of
a pairing whose score is positive, is `≥` the score of every evaluated
pairing, and which is the first pairing in enumeration order attaining that
score (catalog candidates outer loop, order candidates inner loop). -/
theorem c3_best_pairing_selected (product orders : DataFrame)
    (hne : orders.rows ≠ [])
    (hp : detectCols productSkuKeywords product.cols ≠ [])
    (ho : detectCols orderSkuKeywords orders.cols ≠ [])
    (__hdisj : ∀ c ∈ orders.cols, c ∉ product.cols) :
    ((∀ pr ∈ candidatePairs product orders, (scoreOf product orders pr.1 pr.2).2 = 0) ∧
      matchProducts (some product) orders =
        orders.withCol "匹配状态" (fun _ => Value.str "匹配失败")) ∨
    (∃ i, ∃ h : i < (candidatePairs product orders).length,
      matchProducts (some product) orders =
        (scoreOf product orders ((candidatePairs product orders).get ⟨i, h⟩).1
          ((candidatePairs product orders).get ⟨i, h⟩).2).1 ∧
      0 < (scoreOf product orders ((candidatePairs product orders).get ⟨i, h⟩).1
          ((candidatePairs product orders).get ⟨i, h⟩).2).2 ∧
      (∀ pr ∈ candidatePairs product orders, (scoreOf product orders pr.1 pr.2).2 ≤
        (scoreOf product orders ((candidatePairs product orders).get ⟨i, h⟩).1
          ((candidatePairs product orders).get ⟨i, h⟩).2).2) ∧
      ∀ j, ∀ hj : j < i,
        (scoreOf product orders ((candidatePairs product orders).get ⟨j, by omega⟩).1
          ((candidatePairs product orders).get ⟨j, by omega⟩).2).2 <
        (scoreOf product orders ((candidatePairs product orders).get ⟨i, h⟩).1
          ((candidatePairs product orders).get ⟨i, h⟩).2).2) := by
  have hmatch : matchProducts (some product) orders =
      match pickAux ((candidatePairs product orders).map
          (fun pr => scoreOf product orders pr.1 pr.2)) (none, 0) with
      | (some m, cnt) =>
          if 0 < cnt then m else orders.withCol "匹配状态" (fun _ => Value.str "匹配失败")
      | (none, _) => orders.withCol "匹配状态" (fun _ => Value.str "匹配失败") := by
    unfold matchProducts
    have hez : ∀ {α : Type} (l : List α), l ≠ [] → l.isEmpty = false := by
      intro α l h
      cases l with
      | nil => exact absurd rfl h
      | cons x xs => rfl
    have e1 : orders.rows.isEmpty = false := hez _ hne
    have e2 : ((detectCols productSkuKeywords product.cols).isEmpty ||
        (detectCols orderSkuKeywords orders.cols).isEmpty) = false := by
      rw [hez _ hp, hez _ ho]
      rfl
    simp [e1, e2]
  have hlen : ((candidatePairs product orders).map
      (fun pr => scoreOf product orders pr.1 pr.2)).length =
      (candidatePairs product orders).length := List.length_map _ _
  rcases pickAux_spec ((candidatePairs product orders).map
      (fun pr => scoreOf product orders pr.1 pr.2)) none 0 with
    ⟨h1, h2, h3⟩ | ⟨i, hi, h1, h2, h3, h4, h5⟩
  · left
    constructor
    · intro pr hpr
      have hm : scoreOf product orders pr.1 pr.2 ∈
          (candidatePairs product orders).map (fun pr => scoreOf product orders pr.1 pr.2) :=
        List.mem_map.mpr ⟨pr, hpr, rfl⟩
      exact Nat.le_zero.mp (h3 _ hm)
    · rw [hmatch]
      rcases hpk : pickAux ((candidatePairs product orders).map
          (fun pr => scoreOf product orders pr.1 pr.2)) (none, 0) with ⟨b, cnt⟩
      rw [hpk] at h2
      simp only at h2
      subst h2
      simp only [hpk]
  · right
    have hi2 : i < (candidatePairs product orders).length := by rw [← hlen]; exact hi
    have hget : ∀ (j : Nat) (hj : j < ((candidatePairs product orders).map
        (fun pr => scoreOf product orders pr.1 pr.2)).length),
        ((candidatePairs product orders).map
          (fun pr => scoreOf product orders pr.1 pr.2)).get ⟨j, hj⟩ =
        scoreOf product orders
          ((candidatePairs product orders).get ⟨j, by rw [← hlen]; exact hj⟩).1
          ((candidatePairs product orders).get ⟨j, by rw [← hlen]; exact hj⟩).2 := by
      intro j hj
      simp [List.getElem_map]
    refine ⟨i, hi2, ?_, ?_, ?_, ?_⟩
    · rw [hmatch]
      rcases hpk : pickAux ((candidatePairs product orders).map
          (fun pr => scoreOf product orders pr.1 pr.2)) (none, 0) with ⟨b, cnt⟩
      rw [hpk] at h1 h2
      simp only at h1 h2
      subst h1
      subst h2
      simp only [hpk]
      rw [if_pos h3, hget i hi]
    · have := h3
      rw [hget i hi] at this
      simpa using this
    · intro pr hpr
      have hm : scoreOf product orders pr.1 pr.2 ∈
          (candidatePairs product orders).map (fun pr => scoreOf product orders pr.1 pr.2) :=
        List.mem_map.mpr ⟨pr, hpr, rfl⟩
      have := h4 _ hm
      rw [hget i hi] at this
      exact this
    · intro j hj
      have hj2 : j < ((candidatePairs product orders).map
          (fun pr => scoreOf product orders pr.1 pr.2)).length := by
        rw [hlen]; omega
      have := h5 j (by omega)
      rw [hget i hi, hget j hj2] at this
      exact this

/-- Witness for C3: at Scenario C's catalog and a single-row order table the
hypotheses hold concretely and the theorem yields the best-pairing
disjunction for those tables. -/
theorem c3_best_pairing_selected_witness :
    ((∀ pr ∈ candidatePairs catalogC ordersC, (scoreOf catalogC ordersC pr.1 pr.2).2 = 0) ∧
      matchProducts (some catalogC) ordersC =
        ordersC.withCol "匹配状态" (fun _ => Value.str "匹配失败")) ∨
    (∃ i, ∃ h : i < (candidatePairs catalogC ordersC).length,
      matchProducts (some catalogC) ordersC =
        (scoreOf catalogC ordersC ((candidatePairs catalogC ordersC).get ⟨i, h⟩).1
          ((candidatePairs catalogC ordersC).get ⟨i, h⟩).2).1 ∧
      0 < (scoreOf catalogC ordersC ((candidatePairs catalogC ordersC).get ⟨i, h⟩).1
          ((candidatePairs catalogC ordersC).get ⟨i, h⟩).2).2 ∧
      (∀ pr ∈ candidatePairs catalogC ordersC, (scoreOf catalogC ordersC pr.1 pr.2).2 ≤
        (scoreOf catalogC ordersC ((candidatePairs catalogC ordersC).get ⟨i, h⟩).1
          ((candidatePairs catalogC ordersC).get ⟨i, h⟩).2).2) ∧
      ∀ j, ∀ hj : j < i,
        (scoreOf catalogC ordersC ((candidatePairs catalogC ordersC).get ⟨j, by omega⟩).1
          ((candidatePairs catalogC ordersC).get ⟨j, by omega⟩).2).2 <
        (scoreOf catalogC ordersC ((candidatePairs catalogC ordersC).get ⟨i, h⟩).1
          ((candidatePairs catalogC ordersC).get ⟨i, h⟩).2).2) :=
  c3_best_pairing_selected catalogC ordersC (by decide) (by decide) (by decide) (by decide)

/-- C2 (counterexample) — The claim that the catalog is deduplicated on the
key column before each candidate join (so that no order row is duplicated
and every joined row receives the first entry's cost 4) is false: with
Scenario C's catalog (`A1` with cost 4, then `A1` with cost 9) the single
order row produces two join-output rows, and the second carries cost 9. -/
theorem c2_no_catalog_dedup_counterexample :
    (matchProducts (some catalogC) ordersC).rows.length = 2 ∧
    getCell (matchProducts (some catalogC) ordersC).cols
      ((matchProducts (some catalogC) ordersC).rows.getD 1 []) "cost" = Value.num 9 := by
  with_unfolding_all decide

/-- C2 (amended) — The catalog is NOT deduplicated before the candidate
joins: for Scenario C's catalog, an order row joining on code `A1` is
duplicated into two join-output rows, receiving the first entry's cost 4 and
the second entry's cost 9 respectively, in catalog order. -/
theorem c2_catalog_duplicates_propagate_to_join :
    matchProducts (some catalogC) ordersC =
      ⟨["sku", "code", "cost"],
        [[Value.str "A1", Value.str "A1", Value.num 4],
          [Value.str "A1", Value.str "A1", Value.num 9]]⟩ := by
  with_unfolding_all decide

/-- C4 (counterexample) — The claim that after the pipeline's final
deduplication stage no two output rows share an identical non-empty
composite business key is false: two fully identical paid order lines both
survive the whole pipeline, sharing the same non-empty key. -/
theorem c4_duplicate_business_keys_counterexample :
    ((processData (some catalogD) (some ordersD) [] "t").1).rows.length = 2 ∧
    businessKey (processData (some catalogD) (some ordersD) [] "t").1
        (((processData (some catalogD) (some ordersD) [] "t").1).rows.getD 0 []) =
      businessKey (processData (some catalogD) (some ordersD) [] "t").1
        (((processData (some catalogD) (some ordersD) [] "t").1).rows.getD 1 []) ∧
    ¬businessKey (processData (some catalogD) (some ordersD) [] "t").1
        (((processData (some catalogD) (some ordersD) [] "t").1).rows.getD 0 []) = "" := by
  with_unfolding_all decide

/-- C4 (amended) — The pipeline has no deduplication stage at all: for every
input, the processed dataset of `process_data` is exactly
clean → match → compute, with no business-key dedup applied afterwards (so
duplicate-keyed rows are all retained). -/
theorem c4_pipeline_has_no_dedup_stage (product? orders? : Option DataFrame)
    (shops : List String) (now : String) :
    (processData product? orders? shops now).1 =
      calculateCostsAndProfits product?
        (matchProducts product? (cleanOrders orders? shops)) now := by
  by_cases hemp : (cleanOrders orders? shops).rows.isEmpty = true
  · simp only [processData]
    rw [if_pos hemp]
    rcases product? with _ | p
    · rfl
    · have hm : matchProducts (some p) (cleanOrders orders? shops) = DataFrame.empty := by
        simp only [matchProducts]
        rw [if_pos hemp]
      rw [hm]
      rfl
  · simp only [processData]
    rw [if_neg hemp]

/-- C6 — Numeric safety of the processed dataset: for every input, no cell
of the pipeline's processed output is a missing value (`null`, the model of
pandas `NaN`); the final `replace([inf,-inf],0)`/`fillna(0)` pass fills
every cell, and in the exact-rational model no infinite value exists at all,
so every cell of every output row is a genuine string or number.  (The
numeric slots of the analysis record are exact rationals by construction;
the one NaN source there, the mean of an empty selection, is modelled
sanitised by `safeMean`.) -/
theorem c6_no_null_cell_in_processed_output (product? orders? : Option DataFrame)
    (shops : List String) (now : String) :
    ∀ r ∈ (processData product? orders? shops now).1.rows, ∀ v ∈ r, ¬v = Value.null := by
  have hfill : ∀ v : Value, ¬fillVal v = Value.null := by
    intro v
    unfold fillVal
    split
    · simp
    · next h => exact h
  intro r hr v hv
  by_cases hemp : (cleanOrders orders? shops).rows.isEmpty = true
  · simp only [processData] at hr
    rw [if_pos hemp] at hr
    simp [DataFrame.empty] at hr
  · simp only [processData] at hr
    rw [if_neg hemp] at hr
    simp only at hr
    by_cases hm : (matchProducts product? (cleanOrders orders? shops)).rows.isEmpty = true
    · unfold calculateCostsAndProfits at hr
      rw [if_pos hm] at hr
      simp [DataFrame.empty] at hr
    · unfold calculateCostsAndProfits at hr
      rw [if_neg hm] at hr
      rcases List.mem_map.mp hr with ⟨r7, _, hre⟩
      subst hre
      rcases List.mem_map.mp hv with ⟨u, _, hue⟩
      rw [← hue]
      exact hfill u

/-- C7 (counterexample) — The claim that an empty input catalog yields an
empty processed dataset and an empty analysis record is false: with a
zero-row catalog (whose SKU column still exists) every pairing scores 0, the
orders are tagged `匹配失败` and processed normally, so the output has one
row and a non-empty analysis record. -/
theorem c7_empty_catalog_not_sentinel_counterexample :
    ((processData (some catalog0) (some orders1) [] "t").1).rows.length = 1 ∧
    ¬(processData (some catalog0) (some orders1) [] "t").2 = none := by
  with_unfolding_all decide

/-- C7 (amended) — The empty-result sentinel is driven by cleaning alone:
whenever cleaning leaves no order row (in particular when the orders table
is empty or absent), the pipeline returns an empty dataset and an empty
analysis record and raises no error; an absent catalog also yields an empty
dataset but with a populated `processing_info`, and a present-but-empty
catalog does not trigger the sentinel at all. -/
theorem c7_empty_cleaning_sentinel (product? orders? : Option DataFrame)
    (shops : List String) (now : String)
    (h : (cleanOrders orders? shops).rows = []) :
    processData product? orders? shops now = (DataFrame.empty, none) := by
  simp only [processData]
  rw [if_pos (by rw [h]; rfl)]

/-- Witness for C7 (amended): with no orders table loaded, cleaning is empty
and the pipeline returns the empty dataset and record. -/
theorem c7_empty_cleaning_sentinel_witness :
    processData (some catalog0) none [] "t" = (DataFrame.empty, none) :=
  c7_empty_cleaning_sentinel (some catalog0) none [] "t" rfl

/-- C8 (counterexample) — Scenario A with its literal column names is false
on the code: the amount keywords are Chinese (`买家实付/实付/金额/付款`), so a
column named `paid` is not detected; revenue is 0 for every row and the
first row gets profit -4 and margin 0 instead of the claimed profit 6 and
margin 0.6. -/
theorem c8_scenario_a_literal_counterexample :
    getCell (processData (some catalogA) (some ordersA) [] "t").1.cols
      ((processData (some catalogA) (some ordersA) [] "t").1.rows.getD 0 []) "销售收入" =
      Value.num 0 ∧
    getCell (processData (some catalogA) (some ordersA) [] "t").1.cols
      ((processData (some catalogA) (some ordersA) [] "t").1.rows.getD 0 []) "利润" =
      Value.num (-4) ∧
    getCell (processData (some catalogA) (some ordersA) [] "t").1.cols
      ((processData (some catalogA) (some ordersA) [] "t").1.rows.getD 0 []) "毛利率" =
      Value.num 0 := by
  with_unfolding_all decide

/-- C8 (amended) — Scenario A holds once the amount column bears a
recognised amount-keyword name (`实付` instead of `paid`): cleaning keeps
both rows (group sum 10 > 0), both match the catalog entry with unit cost 4
and quantity 1, the first row gets total cost 4, profit 6 and margin 0.6,
and the second row gets revenue 0, profit -4 and margin 0. -/
theorem c8_scenario_a_with_recognised_amount_column :
    (cleanOrderData ordersA2 []).rows.length = 2 ∧
    (processData (some catalogA) (some ordersA2) [] "t").1.rows.length = 2 ∧
    (getCell (processData (some catalogA) (some ordersA2) [] "t").1.cols
      ((processData (some catalogA) (some ordersA2) [] "t").1.rows.getD 0 []) "单位成本" =
      Value.num 4 ∧
    getCell (processData (some catalogA) (some ordersA2) [] "t").1.cols
      ((processData (some catalogA) (some ordersA2) [] "t").1.rows.getD 0 []) "数量" =
      Value.num 1 ∧
    getCell (processData (some catalogA) (some ordersA2) [] "t").1.cols
      ((processData (some catalogA) (some ordersA2) [] "t").1.rows.getD 0 []) "总成本" =
      Value.num 4 ∧
    getCell (processData (some catalogA) (some ordersA2) [] "t").1.cols
      ((processData (some catalogA) (some ordersA2) [] "t").1.rows.getD 0 []) "利润" =
      Value.num 6 ∧
    getCell (processData (some catalogA) (some ordersA2) [] "t").1.cols
      ((processData (some catalogA) (some ordersA2) [] "t").1.rows.getD 0 []) "毛利率" =
      Value.num (3 / 5)) ∧
    (getCell (processData (some catalogA) (some ordersA2) [] "t").1.cols
      ((processData (some catalogA) (some ordersA2) [] "t").1.rows.getD 1 []) "销售收入" =
      Value.num 0 ∧
    getCell (processData (some catalogA) (some ordersA2) [] "t").1.cols
      ((processData (some catalogA) (some ordersA2) [] "t").1.rows.getD 1 []) "利润" =
      Value.num (-4) ∧
    getCell (processData (some catalogA) (some ordersA2) [] "t").1.cols
      ((processData (some catalogA) (some ordersA2) [] "t").1.rows.getD 1 []) "毛利率" =
      Value.num 0) := by
  with_unfolding_all decide

/-- C9 (counterexample) — Cleaning is not idempotent for every shop filter:
with order 1 = {-5 in shop A, 10 in shop B} and the filter {A}, the first
pass keeps the -5 row (its order-group sums to 5 > 0, then the shop filter
drops the B row), while a second pass re-groups over the remaining row alone
(sum -5 ≤ 0) and removes it: 1 row versus 0 rows. -/
theorem c9_shop_filter_breaks_idempotence_counterexample :
    (cleanOrderData ordersS ["A"]).rows.length = 1 ∧
    (cleanOrderData (cleanOrderData ordersS ["A"]) ["A"]).rows.length = 0 := by
  with_unfolding_all decide

/-- Witness for C5: on a concrete matched table with cost column `cost` and
revenue column `实付` the three formula equations hold for its output row,
and on a matched table with no cost and no quantity column the defaults 0
and 1 apply. -/
theorem c5_cost_profit_margin_formulas_witness :
    (getCell (calculateCostsAndProfits (some productW) matchedW "t").cols
        ((calculateCostsAndProfits (some productW) matchedW "t").rows.getD 0 []) "总成本" =
      Value.num (round2
        (numOf (getCell (calculateCostsAndProfits (some productW) matchedW "t").cols
            ((calculateCostsAndProfits (some productW) matchedW "t").rows.getD 0 []) "单位成本") *
          numOf (getCell (calculateCostsAndProfits (some productW) matchedW "t").cols
            ((calculateCostsAndProfits (some productW) matchedW "t").rows.getD 0 []) "数量"))) ∧
      getCell (calculateCostsAndProfits (some productW) matchedW "t").cols
        ((calculateCostsAndProfits (some productW) matchedW "t").rows.getD 0 []) "利润" =
      Value.num (round2
        (numOf (getCell (calculateCostsAndProfits (some productW) matchedW "t").cols
            ((calculateCostsAndProfits (some productW) matchedW "t").rows.getD 0 []) "销售收入") -
          numOf (getCell (calculateCostsAndProfits (some productW) matchedW "t").cols
            ((calculateCostsAndProfits (some productW) matchedW "t").rows.getD 0 []) "总成本"))) ∧
      getCell (calculateCostsAndProfits (some productW) matchedW "t").cols
        ((calculateCostsAndProfits (some productW) matchedW "t").rows.getD 0 []) "毛利率" =
      Value.num
        (if 0 < numOf (getCell (calculateCostsAndProfits (some productW) matchedW "t").cols
            ((calculateCostsAndProfits (some productW) matchedW "t").rows.getD 0 []) "销售收入")
          then round4
            (numOf (getCell (calculateCostsAndProfits (some productW) matchedW "t").cols
              ((calculateCostsAndProfits (some productW) matchedW "t").rows.getD 0 []) "利润") /
              numOf (getCell (calculateCostsAndProfits (some productW) matchedW "t").cols
                ((calculateCostsAndProfits (some productW) matchedW "t").rows.getD 0 []) "销售收入"))
          else 0)) ∧
    getCell (calculateCostsAndProfits none matchedN "t").cols
      ((calculateCostsAndProfits none matchedN "t").rows.getD 0 []) "单位成本" = Value.num 0 ∧
    getCell (calculateCostsAndProfits none matchedN "t").cols
      ((calculateCostsAndProfits none matchedN "t").rows.getD 0 []) "数量" = Value.num 1 :=
  ⟨(c5_cost_profit_margin_formulas (some productW) matchedW "t").1
      ((calculateCostsAndProfits (some productW) matchedW "t").rows.getD 0 [])
      (by with_unfolding_all decide),
    (c5_cost_profit_margin_formulas none matchedN "t").2.1 (by decide)
      ((calculateCostsAndProfits none matchedN "t").rows.getD 0 [])
      (by with_unfolding_all decide),
    (c5_cost_profit_margin_formulas none matchedN "t").2.2 (by decide)
      ((calculateCostsAndProfits none matchedN "t").rows.getD 0 [])
      (by with_unfolding_all decide)⟩

/-- Witness for C6: the first cell of the first output row of a concrete
pipeline run is not a missing value. -/
theorem c6_no_null_cell_in_processed_output_witness :
    ¬((processData (some catalogD) (some ordersD) [] "t").1.rows.getD 0 []).getD 0
        Value.null = Value.null :=
  c6_no_null_cell_in_processed_output (some catalogD) (some ordersD) [] "t"
    ((processData (some catalogD) (some ordersD) [] "t").1.rows.getD 0 [])
    (by with_unfolding_all decide)
    (((processData (some catalogD) (some ordersD) [] "t").1.rows.getD 0 []).getD 0 Value.null)
    (by with_unfolding_all decide)
